import Mathlib

/-!  Shallow embedding of the record-tracker server (`server.py`).

The embedding covers the SQLite schema bootstrap (`SCHEMA` / `init_db`),
the entity repositories (`find_or_create_artist` / `_genre` / `_store`,
`add_record_db`, `update_record_db`, `delete_record_db`,
`fetch_all_records_db`, `get_*_db`), the Flask facade's
validation/sanitization helpers (`parse_int`, `parse_float`,
`sanitize_text`, `parse_date_yyyy_mm_dd`) and the facade endpoints used by
the claims (`api_add_record`, `api_update_record`, `api_delete_record`,
`api_delete_genre`, `api_get_records`, `api_report_records`).

The database file is modelled as a `DB` value: one list per table plus the
AUTOINCREMENT sequence counters.  The `recordStores` link table is *not*
created by `SCHEMA`; since several queries branch on its existence
(`sqlite_master` probes in `fetch_all_records_db` and
`api_report_records`) the model carries a `hasLinks` flag recording
whether that table exists, and statements that touch a missing table
return the corresponding `sqlite3.OperationalError` message.  A raised
error leaves the database unchanged (the connection is abandoned before
`commit`, so the transaction rolls back).  Machine floats of the source
are modelled as `ℚ` (only comparisons and averages occur). -/

/-- Python `str.strip()` whitespace predicate (the ASCII whitespace
characters recognised by `str.isspace`). -/
def isPySpace (c : Char) : Bool :=
  c == ' ' || c == '\t' || c == '\n' || c == '\r' || c == '\x0b' || c == '\x0c'

/-- Drop trailing characters satisfying `isPySpace`. -/
def trimRight : List Char → List Char
  | [] => []
  | c :: rest =>
    let r := trimRight rest
    if r.isEmpty then (if isPySpace c then [] else [c]) else c :: r

/-- Python `str.strip()` on the underlying character list. -/
def pyStripList (l : List Char) : List Char := trimRight (l.dropWhile isPySpace)

/-- Python `str.strip()`. -/
def pyStrip (s : String) : String := ⟨pyStripList s.data⟩

/-- Byte-order comparison of two character lists (SQLite compares TEXT by
memcmp; UTF-8 byte order agrees with code-point order). -/
def listLeCh : List Char → List Char → Bool
  | [], _ => true
  | _ :: _, [] => false
  | a :: as, b :: bs =>
    if a.toNat < b.toNat then true
    else if b.toNat < a.toNat then false
    else listLeCh as bs

/-- SQLite TEXT comparison `a <= b`. -/
def strLe (a b : String) : Bool := listLeCh a.data b.data

/-- Insert into a list sorted by the boolean relation `le`. -/
def insertLe {α : Type} (le : α → α → Bool) (a : α) : List α → List α
  | [] => [a]
  | b :: bs => if le a b then a :: b :: bs else b :: insertLe le a bs

/-- Insertion sort by the boolean relation `le` (models SQL `ORDER BY`;
only the permutation property is used by the development). -/
def isort {α : Type} (le : α → α → Bool) (l : List α) : List α :=
  l.foldr (insertLe le) []

/- ------------------------------------------------------------------
Schema bootstrap: `SCHEMA` (server.py lines 8-48) and `init_db`.
Each DDL statement is `CREATE TABLE IF NOT EXISTS` or
`CREATE INDEX IF NOT EXISTS`; executing one against the catalog adds the
table/index when absent and is a no-op otherwise.
------------------------------------------------------------------ -/

inductive SchemaStmt where
  | createTable (tname : String)
  | createIndex (iname tname : String)
deriving DecidableEq

/-- The two `executescript` blocks of `SCHEMA` in source order. -/
def SCHEMA : List (List SchemaStmt) :=
  [ [ .createTable "Artists",
      .createIndex "idx_artists_name" "Artists" ],
    [ .createTable "Genres",
      .createTable "Records",
      .createIndex "idx_records_artist" "Records",
      .createIndex "idx_records_genre" "Records",
      .createIndex "idx_records_purchase_date" "Records",
      .createIndex "idx_records_year" "Records",
      .createTable "Stores",
      .createIndex "idx_stores_name" "Stores" ] ]

/-- The database catalog: which tables and indexes exist. -/
structure Catalog where
  tables : List String
  indexes : List String
deriving DecidableEq

def execStmt (c : Catalog) : SchemaStmt → Catalog
  | .createTable t =>
    if c.tables.contains t then c else { c with tables := c.tables ++ [t] }
  | .createIndex i _ =>
    if c.indexes.contains i then c else { c with indexes := c.indexes ++ [i] }

/-- `init_db`: run every statement of `SCHEMA` against the catalog. -/
def init_db (c : Catalog) : Catalog :=
  SCHEMA.foldl (fun acc grp => grp.foldl execStmt acc) c

def emptyCatalog : Catalog := ⟨[], []⟩

/- ------------------------------------------------------------------
Data model: the five tables of the normalized schema.  `recordStores`
rows are `(record_id, store_id)` pairs; `hasLinks` records whether that
table exists in the file (SCHEMA never creates it).
------------------------------------------------------------------ -/

structure ArtistRow where
  id : Nat
  name : String
  country : Option String
deriving DecidableEq

structure GenreRow where
  id : Nat
  name : String
deriving DecidableEq

structure StoreRow where
  id : Nat
  name : String
  state : Option String
  address : Option String
deriving DecidableEq

structure RecordRow where
  id : Nat
  title : String
  artist_id : Option Nat
  genre_id : Option Nat
  year : Option Int
  condition : Option String
  price : Option ℚ
  purchase_date : Option String
deriving DecidableEq

structure DB where
  artists : List ArtistRow
  genres : List GenreRow
  stores : List StoreRow
  records : List RecordRow
  links : List (Nat × Nat)
  hasLinks : Bool
  artistSeq : Nat
  genreSeq : Nat
  storeSeq : Nat
  recordSeq : Nat
deriving DecidableEq

/-- Well-formedness of one table: primary keys are distinct and bounded by
the AUTOINCREMENT sequence counter. -/
def tableWF (ids : List Nat) (seq : Nat) : Prop :=
  ids.Nodup ∧ ∀ i ∈ ids, i ≤ seq

/-- Well-formedness of a database state (holds for every state SQLite can
actually produce: AUTOINCREMENT primary keys are unique and never exceed
the stored sequence value). -/
def DB.WF (db : DB) : Prop :=
  tableWF (db.artists.map (fun a => a.id)) db.artistSeq ∧
  tableWF (db.genres.map (fun g => g.id)) db.genreSeq ∧
  tableWF (db.stores.map (fun s => s.id)) db.storeSeq ∧
  tableWF (db.records.map (fun r => r.id)) db.recordSeq

instance (ids : List Nat) (seq : Nat) : Decidable (tableWF ids seq) := by
  unfold tableWF; infer_instance

instance (db : DB) : Decidable db.WF := by
  unfold DB.WF; infer_instance

/-- The state of the database file right after a fresh `init_db` run: all
tables empty, and the link table present only if `SCHEMA` created it. -/
def dbAfterInit : DB :=
  { artists := [], genres := [], stores := [], records := [], links := []
    hasLinks := (init_db emptyCatalog).tables.contains "recordStores"
    artistSeq := 0, genreSeq := 0, storeSeq := 0, recordSeq := 0 }

/- ------------------------------------------------------------------
Entity repositories (server.py lines 64-146).
------------------------------------------------------------------ -/

/-- `find_or_create_artist(name, country)` (server.py lines 64-79). -/
def find_or_create_artist (db : DB) (name : String) (country : Option String) :
    Option Nat × DB :=
  let name := pyStrip name
  if name = "" then (none, db)
  else
    match db.artists.find? (fun a => a.name == name) with
    | some a => (some a.id, db)
    | none =>
      let aid := db.artistSeq + 1
      (some aid,
        { db with artists := db.artists ++ [⟨aid, name, country⟩], artistSeq := aid })

/-- `find_or_create_genre(name)` (server.py lines 91-106). -/
def find_or_create_genre (db : DB) (name : String) : Option Nat × DB :=
  let name := pyStrip name
  if name = "" then (none, db)
  else
    match db.genres.find? (fun g => g.name == name) with
    | some g => (some g.id, db)
    | none =>
      let gid := db.genreSeq + 1
      (some gid,
        { db with genres := db.genres ++ [⟨gid, name⟩], genreSeq := gid })

/-- Python truthiness of the `address` argument. -/
def addrGiven : Option String → Bool
  | some a => !(a == "")
  | none => false

/-- `find_or_create_store(name, state, address)` (server.py lines 127-146):
matched by name and address when an address is given, else by name. -/
def find_or_create_store (db : DB) (name : String) (state address : Option String) :
    Option Nat × DB :=
  let name := pyStrip name
  if name = "" then (none, db)
  else
    let hit :=
      if addrGiven address then
        db.stores.find? (fun s => s.name == name && s.address == address)
      else
        db.stores.find? (fun s => s.name == name)
    match hit with
    | some s => (some s.id, db)
    | none =>
      let sid := db.storeSeq + 1
      (some sid,
        { db with stores := db.stores ++ [⟨sid, name, state, address⟩], storeSeq := sid })

/-- `get_artists_db()` (ORDER BY name). -/
def get_artists_db (db : DB) : List (Nat × String × Option String) :=
  (isort (fun a b => strLe a.name b.name) db.artists).map (fun a => (a.id, a.name, a.country))

/-- `get_genres_db()` (ORDER BY name). -/
def get_genres_db (db : DB) : List (Nat × String) :=
  (isort (fun a b => strLe a.name b.name) db.genres).map (fun g => (g.id, g.name))

/-- `get_stores_db()` (ORDER BY name). -/
def get_stores_db (db : DB) : List (Nat × String × Option String × Option String) :=
  (isort (fun a b => strLe a.name b.name) db.stores).map
    (fun s => (s.id, s.name, s.state, s.address))

/- ------------------------------------------------------------------
Record repository (server.py lines 149-302).
------------------------------------------------------------------ -/

/-- The `data` dict handed to the record repository.  `store_key` records
whether the dict contains the `store_id` key at all (the facade always
includes it; `update_record_db` branches on `'store_id' in data`). -/
structure RecData where
  title : Option String
  artist_id : Option Nat
  genre_id : Option Nat
  year : Option Int
  condition : Option String
  price : Option ℚ
  purchase_date : Option String
  store_id : Option Nat
  store_key : Bool
deriving DecidableEq

/-- `INSERT OR IGNORE INTO recordStores`: inserts the pair unless already
present. -/
def insertLink (db : DB) (rid sid : Nat) : DB :=
  if db.links.contains (rid, sid) then db
  else { db with links := db.links ++ [(rid, sid)] }

/-- `add_record_db(data)` (server.py lines 149-173).  Raised exceptions
(`ValueError` from validation, `OperationalError` when the `recordStores`
table is missing) are `.error`; the transaction is then never committed,
so the caller's database is unchanged. -/
def add_record_db (db : DB) (d : RecData) : Except String (Nat × DB) :=
  match d.title with
  | none => .error "title required"
  | some title =>
    match d.year with
    | none => .error "year must be a valid number between 1800 and 2100"
    | some y =>
      if y < 1800 ∨ y > 2100 then
        .error "year must be a valid number between 1800 and 2100"
      else
        match d.price with
        | none => .error "price must be a valid non-negative number"
        | some p =>
          if p < 0 then .error "price must be a valid non-negative number"
          else
            let rid := db.recordSeq + 1
            let db' := { db with
              records := db.records ++
                [⟨rid, title, d.artist_id, d.genre_id, some y, d.condition,
                  some p, d.purchase_date⟩],
              recordSeq := rid }
            match d.store_id with
            | some sid =>
              if sid == 0 then .ok (rid, db')
              else if db.hasLinks then .ok (rid, insertLink db' rid sid)
              else .error "no such table: recordStores"
            | none => .ok (rid, db')

/-- `update_record_db(record_id, data)` (server.py lines 176-199). -/
def update_record_db (db : DB) (rid : Nat) (d : RecData) : Except String DB :=
  match d.title with
  | none => .error "title required"
  | some title =>
    match d.year with
    | none => .error "year must be a valid number between 1800 and 2100"
    | some y =>
      if y < 1800 ∨ y > 2100 then
        .error "year must be a valid number between 1800 and 2100"
      else
        match d.price with
        | none => .error "price must be a valid non-negative number"
        | some p =>
          if p < 0 then .error "price must be a valid non-negative number"
          else
            let db' := { db with
              records := db.records.map (fun r =>
                if r.id == rid then
                  ⟨r.id, title, d.artist_id, d.genre_id, some y, d.condition,
                    some p, d.purchase_date⟩
                else r) }
            if d.store_key then
              if db.hasLinks then
                let db'' := { db' with links := db'.links.filter (fun l => l.1 != rid) }
                match d.store_id with
                | some sid => if sid == 0 then .ok db'' else .ok (insertLink db'' rid sid)
                | none => .ok db''
              else .error "no such table: recordStores"
            else .ok db'

/-- `delete_record_db(record_id)` (server.py lines 202-220): fetch the
record's artist id, remove link rows, remove the record, then remove the
artist when it has no remaining records. -/
def delete_record_db (db : DB) (rid : Nat) : Except String DB :=
  let aop : Option Nat := (db.records.find? (fun r => r.id == rid)).bind (fun r => r.artist_id)
  if db.hasLinks then
    let db1 := { db with
      links := db.links.filter (fun l => l.1 != rid),
      records := db.records.filter (fun r => r.id != rid) }
    match aop with
    | some aid =>
      if aid == 0 then .ok db1
      else if db1.records.countP (fun r => r.artist_id == some aid) == 0 then
        .ok { db1 with artists := db1.artists.filter (fun a => a.id != aid) }
      else .ok db1
    | none => .ok db1
  else .error "no such table: recordStores"

/-- One row of the joined record view returned by `fetch_all_records_db`
and by the report query (columns `record_id, title, artist, genre, store,
year, condition, price, purchase_date`). -/
structure RecordView where
  record_id : Nat
  title : String
  artist : Option String
  genre : Option String
  store : Option String
  year : Option Int
  condition : Option String
  price : Option ℚ
  purchase_date : Option String
deriving DecidableEq

/-- `GROUP_CONCAT(S.name, ', ')`: NULLs are skipped, empty group is NULL. -/
def groupConcat : List String → Option String
  | [] => none
  | x :: xs => some (xs.foldl (fun acc s => acc ++ ", " ++ s) x)

/-- Names of the stores linked to a record (NULL store rows skipped by the
LEFT JOIN / GROUP_CONCAT combination). -/
def storeNamesOf (db : DB) (rid : Nat) : List String :=
  (db.links.filter (fun l => l.1 == rid)).filterMap
    (fun l => (db.stores.find? (fun s => s.id == l.2)).map (fun s => s.name))

/-- The LEFT-JOIN view of one record: artist/genre names looked up by
foreign key, store names aggregated through the link table when it
exists. -/
def recordView (db : DB) (r : RecordRow) : RecordView :=
  { record_id := r.id
    title := r.title
    artist := (r.artist_id.bind (fun aid => db.artists.find? (fun a => a.id == aid))).map
      (fun a => a.name)
    genre := (r.genre_id.bind (fun gid => db.genres.find? (fun g => g.id == gid))).map
      (fun g => g.name)
    store := if db.hasLinks then groupConcat (storeNamesOf db r.id) else none
    year := r.year
    condition := r.condition
    price := r.price
    purchase_date := r.purchase_date }

/-- `ORDER BY R.record_id DESC`. -/
def sortIdDesc (l : List RecordRow) : List RecordRow :=
  isort (fun a b => decide (b.id ≤ a.id)) l

/-- `fetch_all_records_db()` (server.py lines 223-302) on the normalized
schema: join Artists and Genres by foreign key; when the `recordStores`
and `Stores` tables exist, aggregate store names per record (`GROUP BY`),
else the store column is NULL; newest record id first. -/
def fetch_all_records_db (db : DB) : List RecordView :=
  (sortIdDesc db.records).map (recordView db)

/- ------------------------------------------------------------------
Facade helpers (server.py lines 309-351).
------------------------------------------------------------------ -/

/-- `parse_int(val, min_val, max_val)`: out-of-range or missing is None. -/
def parse_int (val : Option Int) (minv maxv : Option Int) : Option Int :=
  match val with
  | none => none
  | some i =>
    if (match minv with | some m => decide (i < m) | none => false) then none
    else if (match maxv with | some m => decide (m < i) | none => false) then none
    else some i

/-- `parse_float(val, min_val, max_val)` on the rational model of floats. -/
def parse_float (val : Option ℚ) (minv maxv : Option ℚ) : Option ℚ :=
  match val with
  | none => none
  | some f =>
    if (match minv with | some m => decide (f < m) | none => false) then none
    else if (match maxv with | some m => decide (m < f) | none => false) then none
    else some f

/-- `sanitize_text(val, max_len=255)`: strip, empty is None, truncate. -/
def sanitize_text (val : Option String) : Option String :=
  let s := pyStripList (val.getD "").data
  if s.isEmpty then none else some ⟨s.take 255⟩

/- ------------------------------------------------------------------
Date parsing (server.py lines 337-344).  `datetime.strptime(val,
"%Y-%m-%d")` compiles to the anchored regex
`\d\d\d\d-(1[0-2]|0[1-9]|[1-9])-(3[01]|[12]\d|0[1-9]|[1-9])` and then the
`datetime(year, month, day)` constructor checks `MINYEAR <= year` and
`day <= days_in_month(year, month)`.  The alternations are embedded
per-shape below; each character-class test is written through the digit
value (with an `isDigitChar` guard), which denotes exactly the same
character sets as the regex classes.
------------------------------------------------------------------ -/

def isDigitChar (c : Char) : Bool := 48 ≤ c.toNat && c.toNat ≤ 57

/-- Digit value of an ASCII digit character. -/
def dval (c : Char) : Nat := c.toNat - 48

/-- Two-digit month alternatives `1[0-2]|0[1-9]`. -/
def monthVal2 (a b : Char) : Option Nat :=
  if isDigitChar a && isDigitChar b then
    if dval a == 1 && dval b ≤ 2 then some (10 + dval b)
    else if dval a == 0 && 1 ≤ dval b then some (dval b)
    else none
  else none

/-- One-digit month alternative `[1-9]`. -/
def monthVal1 (a : Char) : Option Nat :=
  if isDigitChar a && 1 ≤ dval a then some (dval a) else none

/-- Two-digit day alternatives `3[01]|[12]\d|0[1-9]`. -/
def dayVal2 (a b : Char) : Option Nat :=
  if isDigitChar a && isDigitChar b then
    if dval a == 3 && dval b ≤ 1 then some (30 + dval b)
    else if dval a == 1 || dval a == 2 then some (10 * dval a + dval b)
    else if dval a == 0 && 1 ≤ dval b then some (dval b)
    else none
  else none

/-- One-digit day alternative `[1-9]`. -/
def dayVal1 (a : Char) : Option Nat :=
  if isDigitChar a && 1 ≤ dval a then some (dval a) else none

/-- Four-digit year `\d\d\d\d`. -/
def yearVal4 (a b c d : Char) : Option Nat :=
  if isDigitChar a && isDigitChar b && isDigitChar c && isDigitChar d then
    some (1000 * dval a + 100 * dval b + 10 * dval c + dval d)
  else none

/-- Full anchored match of the `%Y-%m-%d` regex: the month and day parts
have one or two characters, fixing the possible shapes by the positions
of the two literal hyphens and the total length. -/
def strptimeTriple : List Char → Option (Nat × Nat × Nat)
  | [y1, y2, y3, y4, '-', m1, m2, '-', d1, d2] =>
    (yearVal4 y1 y2 y3 y4).bind fun y =>
      (monthVal2 m1 m2).bind fun m => (dayVal2 d1 d2).map fun d => (y, m, d)
  | [y1, y2, y3, y4, '-', m1, '-', d1, d2] =>
    (yearVal4 y1 y2 y3 y4).bind fun y =>
      (monthVal1 m1).bind fun m => (dayVal2 d1 d2).map fun d => (y, m, d)
  | [y1, y2, y3, y4, '-', m1, m2, '-', d1] =>
    (yearVal4 y1 y2 y3 y4).bind fun y =>
      (monthVal2 m1 m2).bind fun m => (dayVal1 d1).map fun d => (y, m, d)
  | [y1, y2, y3, y4, '-', m1, '-', d1] =>
    (yearVal4 y1 y2 y3 y4).bind fun y =>
      (monthVal1 m1).bind fun m => (dayVal1 d1).map fun d => (y, m, d)
  | _ => none

/-- Gregorian leap year (as in `calendar.isleap` / `datetime`). -/
def isLeap (y : Nat) : Bool := (y % 4 == 0 && y % 100 != 0) || y % 400 == 0

def daysInMonth (y m : Nat) : Nat :=
  if m == 2 then (if isLeap y then 29 else 28)
  else if m == 4 || m == 6 || m == 9 || m == 11 then 30
  else 31

/-- `parse_date_yyyy_mm_dd(val)`: empty/None is None; a string is returned
unchanged when `strptime` accepts it (regex match plus the `datetime`
constructor's calendar checks), else None. -/
def parse_date_yyyy_mm_dd (val : Option String) : Option String :=
  match val with
  | none => none
  | some s =>
    if s = "" then none
    else
      match strptimeTriple s.data with
      | some (y, m, d) => if 1 ≤ y ∧ d ≤ daysInMonth y m then some s else none
      | none => none

/- ------------------------------------------------------------------
Facade endpoints (server.py lines 354-431, 515-528, 578-681).
------------------------------------------------------------------ -/

/-- HTTP outcome of a facade call: `ok` (2xx), `clientErr` (400 with an
error message), `serverErr` (an uncaught exception, i.e. a 500). -/
inductive ApiResp (α : Type) where
  | ok (val : α)
  | clientErr (msg : String)
  | serverErr (msg : String)
deriving DecidableEq

def ApiResp.isOk {α : Type} : ApiResp α → Bool
  | .ok _ => true
  | _ => false

def ApiResp.isClientErr {α : Type} : ApiResp α → Bool
  | .clientErr _ => true
  | _ => false

def ApiResp.okOr {α : Type} : ApiResp α → α → α
  | .ok a, _ => a
  | _, d => d

def exceptOk {ε α : Type} : Except ε α → Bool
  | .ok _ => true
  | _ => false

def exceptOkOr {ε α : Type} : Except ε α → α → α
  | .ok a, _ => a
  | _, d => d

instance {ε α : Type} [DecidableEq ε] [DecidableEq α] : DecidableEq (Except ε α) := fun x y =>
  match x, y with
  | .ok a, .ok b =>
    if h : a = b then .isTrue (by rw [h])
    else .isFalse (by intro hc; cases hc; exact h rfl)
  | .error a, .error b =>
    if h : a = b then .isTrue (by rw [h])
    else .isFalse (by intro hc; cases hc; exact h rfl)
  | .ok _, .error _ => .isFalse (by intro hc; cases hc)
  | .error _, .ok _ => .isFalse (by intro hc; cases hc)

/-- JSON body of a record create/update request (typed fields; the claims
only exercise payloads of these JSON types). -/
structure Payload where
  title : Option String
  artist_name : Option String
  genre : Option String
  year : Option Int
  condition : Option String
  price : Option ℚ
  purchase_date : Option String
  store_id : Option Int
deriving DecidableEq

/-- `find_or_create_artist(artist_name) if artist_name else None`. -/
def focArtistOpt (db : DB) (an : Option String) : Option Nat × DB :=
  match an with
  | some n => find_or_create_artist db n none
  | none => (none, db)

/-- `find_or_create_genre(genre_name) if genre_name else None`. -/
def focGenreOpt (db : DB) (gn : Option String) : Option Nat × DB :=
  match gn with
  | some n => find_or_create_genre db n
  | none => (none, db)

/-- `POST /api/records` (server.py lines 362-392).  Note the order:
artist/genre find-or-create runs before the year/price validation, so a
400 response can still have inserted an Artists or Genres row. -/
def api_add_record (db : DB) (p : Payload) : ApiResp Nat × DB :=
  match sanitize_text p.title with
  | none => (.clientErr "title required", db)
  | some title =>
    let artist_name := sanitize_text p.artist_name
    let genre_name := sanitize_text p.genre
    let ad1 := focArtistOpt db artist_name
    let db1 := ad1.2
    let gd1 := focGenreOpt db1 genre_name
    let db2 := gd1.2
    match parse_int p.year (some 1800) (some 2100) with
    | none => (.clientErr "year must be a valid number between 1800 and 2100", db2)
    | some year =>
      let condition := sanitize_text p.condition
      match parse_float p.price (some 0) none with
      | none => (.clientErr "price must be a valid non-negative number", db2)
      | some price =>
        let purchase_date := parse_date_yyyy_mm_dd p.purchase_date
        let store_id := parse_int p.store_id (some 1) none
        match add_record_db db2
          ⟨some title, ad1.1, gd1.1, some year, condition, some price,
            purchase_date, store_id.map Int.toNat, true⟩ with
        | .ok (rid, db3) => (.ok rid, db3)
        | .error e => (.serverErr e, db2)

/-- `PUT /api/records/<rid>` (server.py lines 395-425): same validation
pipeline as create; the `data` dict always contains the `store_id` key. -/
def api_update_record (db : DB) (rid : Nat) (p : Payload) : ApiResp Unit × DB :=
  match sanitize_text p.title with
  | none => (.clientErr "title required", db)
  | some title =>
    let artist_name := sanitize_text p.artist_name
    let genre_name := sanitize_text p.genre
    let ad1 := focArtistOpt db artist_name
    let db1 := ad1.2
    let gd1 := focGenreOpt db1 genre_name
    let db2 := gd1.2
    match parse_int p.year (some 1800) (some 2100) with
    | none => (.clientErr "year must be a valid number between 1800 and 2100", db2)
    | some year =>
      let condition := sanitize_text p.condition
      match parse_float p.price (some 0) none with
      | none => (.clientErr "price must be a valid non-negative number", db2)
      | some price =>
        let purchase_date := parse_date_yyyy_mm_dd p.purchase_date
        let store_id := parse_int p.store_id (some 1) none
        match update_record_db db2 rid
          ⟨some title, ad1.1, gd1.1, some year, condition, some price,
            purchase_date, store_id.map Int.toNat, true⟩ with
        | .ok db3 => (.ok (), db3)
        | .error e => (.serverErr e, db2)

/-- `DELETE /api/records/<rid>` (server.py lines 428-431). -/
def api_delete_record (db : DB) (rid : Nat) : ApiResp Unit × DB :=
  match delete_record_db db rid with
  | .ok db' => (.ok (), db')
  | .error e => (.serverErr e, db)

/-- `GET /api/records`. -/
def api_get_records (db : DB) : List RecordView :=
  fetch_all_records_db db

/-- `DELETE /api/genres/<gid>` (server.py lines 515-528): refused while
any record references the genre. -/
def api_delete_genre (db : DB) (gid : Nat) : ApiResp Unit × DB :=
  if 0 < db.records.countP (fun r => r.genre_id == some gid) then
    (.clientErr "genre in use by records, cannot delete", db)
  else
    (.ok (), { db with genres := db.genres.filter (fun g => g.id != gid) })

/- ------------------------------------------------------------------
Report engine (server.py lines 578-681).
------------------------------------------------------------------ -/

/-- JSON body of `POST /api/reports/records`. -/
structure RFilters where
  start_date : Option String
  end_date : Option String
  artist_id : Option Int
  store_id : Option Int
  genre_id : Option Int
deriving DecidableEq

def parsedStart (f : RFilters) : Option String := parse_date_yyyy_mm_dd f.start_date
def parsedEnd (f : RFilters) : Option String := parse_date_yyyy_mm_dd f.end_date
def parsedArtist (f : RFilters) : Option Nat :=
  (parse_int f.artist_id (some 1) none).map Int.toNat
def parsedStore (f : RFilters) : Option Nat :=
  (parse_int f.store_id (some 1) none).map Int.toNat
def parsedGenre (f : RFilters) : Option Nat :=
  (parse_int f.genre_id (some 1) none).map Int.toNat

/-- WHERE clause `R.purchase_date >= ?` (absent filter is satisfied; a
NULL purchase date never satisfies a present filter). -/
def repStartOk (sd : Option String) (r : RecordRow) : Bool :=
  match sd with
  | none => true
  | some d => match r.purchase_date with
    | none => false
    | some pd => strLe d pd

/-- WHERE clause `R.purchase_date <= ?`. -/
def repEndOk (ed : Option String) (r : RecordRow) : Bool :=
  match ed with
  | none => true
  | some d => match r.purchase_date with
    | none => false
    | some pd => strLe pd d

/-- WHERE clause `R.artist_id = ?`. -/
def repArtistOk (aid : Option Nat) (r : RecordRow) : Bool :=
  match aid with
  | none => true
  | some a => r.artist_id == some a

/-- WHERE clause `R.genre_id = ?`. -/
def repGenreOk (gid : Option Nat) (r : RecordRow) : Bool :=
  match gid with
  | none => true
  | some g => r.genre_id == some g

/-- The record-level (date/artist/genre) part of the conjunctive WHERE
predicate. -/
def repRecMatch (sd ed : Option String) (aid gid : Option Nat) (r : RecordRow) : Bool :=
  repStartOk sd r && repEndOk ed r && repArtistOk aid r && repGenreOk gid r

/-- Characterization of the store filter: the record has a link row to the
given store (used in theorem statements). -/
def repStoreOk (db : DB) (sid : Option Nat) (r : RecordRow) : Bool :=
  match sid with
  | none => true
  | some s => db.links.contains (r.id, s)

/-- The `RS.store_id` cells produced for one record by
`LEFT JOIN recordStores RS ON R.record_id = RS.record_id`: one cell per
link row, or a single NULL cell when the record has none. -/
def linkCells (db : DB) (r : RecordRow) : List (Option Nat) :=
  let ls := (db.links.filter (fun l => l.1 == r.id)).map (fun l => l.2)
  if ls.isEmpty then [none] else ls.map some

/-- WHERE clause `RS.store_id = ?` evaluated on one join cell (NULL cells
fail a present filter). -/
def storePass (sid : Option Nat) (c : Option Nat) : Bool :=
  match sid with
  | none => true
  | some s => c == some s

/-- One output row of the report SELECT for a record and one join cell
(the store name is looked up through `LEFT JOIN Stores`). -/
def reportRowView (db : DB) (r : RecordRow) (c : Option Nat) : RecordView :=
  { record_id := r.id
    title := r.title
    artist := (r.artist_id.bind (fun aid => db.artists.find? (fun a => a.id == aid))).map
      (fun a => a.name)
    genre := (r.genre_id.bind (fun gid => db.genres.find? (fun g => g.id == gid))).map
      (fun g => g.name)
    store := (c.bind (fun s => db.stores.find? (fun x => x.id == s))).map (fun x => x.name)
    year := r.year
    condition := r.condition
    price := r.price
    purchase_date := r.purchase_date }

/-- `AVG` over the non-NULL values of a column. -/
def ratAvg (l : List ℚ) : Option ℚ :=
  match l with
  | [] => none
  | _ => some (l.sum / (l.length : ℚ))

/-- `MIN` over the non-NULL values of a column. -/
def ratMin (l : List ℚ) : Option ℚ :=
  match l with
  | [] => none
  | x :: xs => some (xs.foldl min x)

/-- `MAX` over the non-NULL values of a column. -/
def ratMax (l : List ℚ) : Option ℚ :=
  match l with
  | [] => none
  | x :: xs => some (xs.foldl max x)

/-- The `stats` object of the report response. -/
structure RStats where
  count : Nat
  avg_price : Option ℚ
  min_price : Option ℚ
  max_price : Option ℚ
  avg_year : Option ℚ
deriving DecidableEq

/-- `SELECT COUNT(*), AVG(R.price), MIN(R.price), MAX(R.price),
AVG(R.year)` over the rows of the aggregate query (one entry per
contributing join row). -/
def mkStats (recs : List RecordRow) : RStats :=
  { count := recs.length
    avg_price := ratAvg (recs.filterMap (fun r => r.price))
    min_price := ratMin (recs.filterMap (fun r => r.price))
    max_price := ratMax (recs.filterMap (fun r => r.price))
    avg_year := ratAvg (recs.filterMap (fun r => r.year.map (fun y => (y : ℚ)))) }

/-- One entry of the `by_artist` breakdown. -/
structure BAEntry where
  artist_id : Option Nat
  name : Option String
  count : Nat
  avg_price : Option ℚ
deriving DecidableEq

/-- The `GROUP BY A.artist_id, A.name` key of a record under the LEFT
JOIN to Artists (NULL when the record has no matching artist row). -/
def baKey (db : DB) (r : RecordRow) : Option (Nat × String) :=
  (r.artist_id.bind (fun aid => db.artists.find? (fun a => a.id == aid))).map
    (fun a => (a.id, a.name))

/-- Per-artist breakdown over the aggregate rows, ordered by count
descending. -/
def byArtist (db : DB) (recs : List RecordRow) : List BAEntry :=
  let keys := (recs.map (baKey db)).dedup
  let entries := keys.map (fun k =>
    let grp := recs.filter (fun r => baKey db r == k)
    { artist_id := k.map (fun p => p.1)
      name := k.map (fun p => p.2)
      count := grp.length
      avg_price := ratAvg (grp.filterMap (fun r => r.price)) : BAEntry })
  isort (fun a b => decide (b.count ≤ a.count)) entries

/-- The report response. -/
structure Report where
  rows : List RecordView
  stats : RStats
  by_artist : List BAEntry
deriving DecidableEq

def emptyReport : Report := ⟨[], ⟨0, none, none, none, none⟩, []⟩

/-- `POST /api/reports/records` (server.py lines 578-681).  The WHERE
predicate is built once; the row query LEFT-JOINs Artists, Genres and
(when the tables exist) recordStores and Stores; the aggregate query
re-joins recordStores only when a store filter was given; the per-artist
breakdown runs only when the aggregate count is positive.  When a store
filter is given but the `recordStores` table is absent, the row SQL
references the undefined alias `RS` and the aggregate SQL the missing
table, so the endpoint raises (500). -/
def api_report_records (db : DB) (f : RFilters) : ApiResp Report :=
  let sd := parsedStart f
  let ed := parsedEnd f
  let aid := parsedArtist f
  let sid := parsedStore f
  let gid := parsedGenre f
  if sid.isSome && !db.hasLinks then .serverErr "no such column: RS.store_id"
  else
    let matched := (sortIdDesc db.records).filter (repRecMatch sd ed aid gid)
    let rows :=
      if db.hasLinks then
        matched.flatMap (fun r =>
          ((linkCells db r).filter (storePass sid)).map (reportRowView db r))
      else
        matched.map (fun r => reportRowView db r none)
    let statsRecs :=
      if sid.isSome then
        matched.flatMap (fun r => ((linkCells db r).filter (storePass sid)).map (fun _ => r))
      else matched
    let stats := mkStats statsRecs
    let ba := if 0 < stats.count then byArtist db statsRecs else []
    .ok ⟨rows, stats, ba⟩

/- ------------------------------------------------------------------
Claim-side (specification) definitions, used only in theorem statements:
the date format named by the specification, and an independent
reading of the amended date format.
------------------------------------------------------------------ -/

/-- The date format claimed by the specification: four-digit year and
two-digit zero-padded month and day, separated by hyphens. -/
def specPaddedYYYYMMDD (s : String) : Bool :=
  match s.data with
  | [a, b, c, d, '-', e, f, '-', g, h] =>
    isDigitChar a && isDigitChar b && isDigitChar c && isDigitChar d &&
    isDigitChar e && isDigitChar f && isDigitChar g && isDigitChar h
  | _ => false

/-- Split a character list at every hyphen. -/
def splitDash : List Char → List (List Char)
  | [] => [[]]
  | c :: rest =>
    if c == '-' then [] :: splitDash rest
    else
      match splitDash rest with
      | [] => [[c]]
      | g :: gs => (c :: g) :: gs

/-- A non-empty all-digit segment. -/
def segDigits (g : List Char) : Bool := !g.isEmpty && g.all isDigitChar

/-- Decimal value of a digit segment. -/
def segVal (g : List Char) : Nat := g.foldl (fun n c => 10 * n + dval c) 0

/-- The amended date format, read independently of the parser: exactly
three hyphen-separated segments — a four-digit year (at least 0001), a
one-or-two-digit month between 1 and 12, and a one-or-two-digit day
valid for that month and year. -/
def amendedDateOk (s : String) : Bool :=
  match splitDash s.data with
  | [ys, ms, ds] =>
    segDigits ys && ys.length == 4 && 1 ≤ segVal ys &&
    segDigits ms && ms.length ≤ 2 && 1 ≤ segVal ms && segVal ms ≤ 12 &&
    segDigits ds && ds.length ≤ 2 && 1 ≤ segVal ds &&
    segVal ds ≤ daysInMonth (segVal ys) (segVal ms)
  | _ => false

/-- Rejoin the segments produced by `splitDash`. -/
def joinDash : List (List Char) → List Char
  | [] => []
  | [g] => g
  | g :: gs => g ++ '-' :: joinDash gs

/- ------------------------------------------------------------------
Concrete database states and payloads used by witnesses and
counterexamples.
------------------------------------------------------------------ -/

/-- The float -0.01 of the claim, as a rational. -/
def qNeg001 : ℚ := ⟨-1, 100, by decide, by show Nat.Coprime 1 100; exact Nat.coprime_one_left 100⟩

/-- An empty database in which the `recordStores` table does exist. -/
def db0 : DB := ⟨[], [], [], [], [], true, 0, 0, 0, 0⟩

def emptyFilters : RFilters := ⟨none, none, none, none, none⟩

/-- One record linked to two different stores. -/
def dbC2 : DB :=
  { db0 with
    stores := [⟨1, "Sa", none, none⟩, ⟨2, "Sb", none, none⟩]
    records := [⟨1, "T", none, none, some 2000, none, some 10, none⟩]
    links := [(1, 1), (1, 2)]
    storeSeq := 2, recordSeq := 1 }

/-- Artist 1 with one matching record, for the report witness. -/
def dbW2 : DB :=
  { db0 with
    artists := [⟨1, "Miles Davis", none⟩]
    stores := [⟨1, "Sx", none, none⟩]
    records := [⟨1, "Kind of Blue", some 1, none, some 1959, none, some 25,
      some "2020-01-01"⟩]
    links := [(1, 1)]
    artistSeq := 1, storeSeq := 1, recordSeq := 1 }

def filtersW2 : RFilters := ⟨some "2020-01-01", none, some 1, none, none⟩

/-- A creation payload with a fresh artist name and the invalid year 1799. -/
def pC3 : Payload := ⟨some "X", some "Y", none, some 1799, none, some 5, none, none⟩

/-- A fully valid creation payload (no store). -/
def pC4 : Payload :=
  ⟨some "Kind of Blue", some "Miles Davis", some "Jazz", some 1959, none,
    some 25, some "2020-01-01", none⟩

/-- The same payload with a store id. -/
def pC4s : Payload := { pC4 with store_id := some 1 }

/-- One artist referenced by exactly one record. -/
def dbC6 : DB :=
  { db0 with
    artists := [⟨1, "A", none⟩]
    records := [⟨1, "T", some 1, none, some 1990, none, some 5, none⟩]
    artistSeq := 1, recordSeq := 1 }

/-- The same state without the `recordStores` table. -/
def dbC6n : DB := { dbC6 with hasLinks := false }

/-- One genre referenced by one record. -/
def dbW7 : DB :=
  { db0 with
    genres := [⟨1, "Jazz"⟩]
    records := [⟨1, "T", none, some 1, some 1990, none, some 5, none⟩]
    genreSeq := 1, recordSeq := 1 }

/-- One record, no link table. -/
def dbC9 : DB :=
  { db0 with
    hasLinks := false
    records := [⟨1, "T", none, none, some 1990, none, some 5, none⟩]
    recordSeq := 1 }

/-- A valid update payload naming store 2. -/
def pC9 : Payload := ⟨some "T2", none, none, some 1991, none, some 6, none, some 2⟩

/-- A stray link row for the nonexistent record 5. -/
def dbC10 : DB := { db0 with links := [(5, 1)] }

/- ------------------------------------------------------------------
General lemmas.
------------------------------------------------------------------ -/

theorem insertLe_perm {α : Type} (le : α → α → Bool) (a : α) (l : List α) :
    (insertLe le a l).Perm (a :: l) := by
  induction l with
  | nil => exact List.Perm.refl _
  | cons b bs ih =>
    unfold insertLe
    by_cases h : le a b
    · simp [h]
    · simp only [h, if_false, Bool.false_eq_true]
      exact (List.Perm.cons b ih).trans (List.Perm.swap a b bs)

theorem isort_perm {α : Type} (le : α → α → Bool) (l : List α) :
    (isort le l).Perm l := by
  induction l with
  | nil => exact List.Perm.refl _
  | cons a as ih =>
    unfold isort at ih ⊢
    simpa using (insertLe_perm le a (as.foldr (insertLe le) [])).trans (ih.cons a)

theorem mem_isort {α : Type} (le : α → α → Bool) (l : List α) (a : α) :
    a ∈ isort le l ↔ a ∈ l := (isort_perm le l).mem_iff

/-- On a list whose keys are distinct, searching for a member's key finds
exactly that member. -/
theorem find?_key_unique {α : Type} (f : α → Nat) {l : List α}
    (hnd : (l.map f).Nodup) {a : α} (ha : a ∈ l) :
    l.find? (fun x => f x == f a) = some a := by
  induction l with
  | nil => cases ha
  | cons b bs ih =>
    rw [List.map_cons, List.nodup_cons] at hnd
    rcases List.mem_cons.mp ha with rfl | hmem
    · simp [List.find?_cons_of_pos]
    · have hne : f b ≠ f a := by
        intro hcontra
        exact hnd.1 (hcontra ▸ List.mem_map_of_mem f hmem)
      rw [List.find?_cons_of_neg _ (by simpa using hne)]
      exact ih hnd.2 hmem

theorem dropWhile_head_false {p : Char → Bool} :
    ∀ {l : List Char} {c : Char} {t : List Char}, l.dropWhile p = c :: t → p c = false := by
  intro l
  induction l with
  | nil => intro c t h; cases h
  | cons a as ih =>
    intro c t h
    rw [List.dropWhile_cons] at h
    by_cases hp : p a
    · simp only [hp, if_true] at h
      exact ih h
    · simp only [hp, if_false, Bool.false_eq_true] at h
      cases h
      simpa using hp

theorem trimRight_cons_keep {c : Char} (h : isPySpace c = false) (rest : List Char) :
    ∃ t, trimRight (c :: rest) = c :: t := by
  unfold trimRight
  by_cases hr : (trimRight rest).isEmpty
  · exact ⟨[], by simp [hr, h]⟩
  · exact ⟨trimRight rest, by simp [hr]⟩

theorem trimRight_eq_cons {X : List Char} {c : Char} {t : List Char}
    (h : trimRight X = c :: t) : ∃ xs, X = c :: xs := by
  cases X with
  | nil => cases h
  | cons x xs =>
    refine ⟨xs, ?_⟩
    unfold trimRight at h
    by_cases hr : (trimRight xs).isEmpty
    · simp only [hr, if_true] at h
      by_cases hs : isPySpace x
      · simp [hs] at h
      · simp [hs] at h; simp [h.1]
    · simp only [hr, if_false, Bool.false_eq_true] at h
      cases h; rfl

theorem pyStripList_head {l : List Char} {c : Char} {t : List Char}
    (h : pyStripList l = c :: t) : isPySpace c = false := by
  unfold pyStripList at h
  obtain ⟨xs, hxs⟩ := trimRight_eq_cons h
  exact dropWhile_head_false hxs

/-- A sanitized text value still has a non-empty strip: its first
character is not whitespace, so re-stripping it cannot empty it. -/
theorem sanitize_strip_nonempty {v : Option String} {n : String}
    (h : sanitize_text v = some n) : pyStrip n ≠ "" := by
  unfold sanitize_text at h
  by_cases he : (pyStripList (v.getD "").data).isEmpty
  · simp [he] at h
  · simp only [he, if_false, Bool.false_eq_true, Option.some.injEq] at h
    obtain ⟨c, t, hct⟩ : ∃ c t, pyStripList (v.getD "").data = c :: t := by
      cases hx : pyStripList (v.getD "").data with
      | nil => rw [hx] at he; simp at he
      | cons c t => exact ⟨c, t, rfl⟩
    have hc : isPySpace c = false := pyStripList_head hct
    have hdata : n.data = c :: t.take 254 := by
      rw [← h]; rw [hct]; rfl
    intro hcontra
    have : (pyStrip n).data = [] := by rw [hcontra]
    unfold pyStrip at this
    simp only [String.data] at this
    rw [hdata] at this
    unfold pyStripList at this
    rw [List.dropWhile_cons] at this
    simp only [hc, if_false, Bool.false_eq_true] at this
    obtain ⟨t', ht'⟩ := trimRight_cons_keep hc (t.take 254)
    rw [ht'] at this
    cases this

/- ------------------------------------------------------------------
Claim C1.
------------------------------------------------------------------ -/

/-- C1: running `init_db` on an empty database creates the four entity
tables idempotently, but does **not** create the `recordStores` link
table, even though the repository layer uses that table unconditionally:
on the freshly initialized database, deleting a record already raises
`sqlite3.OperationalError: no such table: recordStores`.  The claim's
statement that the link table is created is therefore a bug in the code
(the `CREATE TABLE recordStores` statement is missing from `SCHEMA`). -/
theorem c1_init_db_missing_link_table :
    ("Artists" ∈ (init_db emptyCatalog).tables ∧
     "Genres" ∈ (init_db emptyCatalog).tables ∧
     "Records" ∈ (init_db emptyCatalog).tables ∧
     "Stores" ∈ (init_db emptyCatalog).tables) ∧
    "recordStores" ∉ (init_db emptyCatalog).tables ∧
    init_db (init_db emptyCatalog) = init_db emptyCatalog ∧
    dbAfterInit.hasLinks = false ∧
    delete_record_db dbAfterInit 1 = .error "no such table: recordStores" := by
  decide

/- ------------------------------------------------------------------
Claim C7.
------------------------------------------------------------------ -/

/-- C7: deleting a genre that is still referenced by at least one record
is rejected with a client error; the state is unchanged and the genre
still appears in the genre list. -/
theorem c7_genre_delete_guard (db : DB) (gid : Nat)
    (href : 0 < db.records.countP (fun r => r.genre_id == some gid))
    (hg : gid ∈ db.genres.map (fun g => g.id)) :
    api_delete_genre db gid =
      (.clientErr "genre in use by records, cannot delete", db) ∧
    ∃ e ∈ get_genres_db db, e.1 = gid := by
  constructor
  · unfold api_delete_genre
    rw [if_pos href]
  · obtain ⟨g, hgmem, hgid⟩ := List.mem_map.mp hg
    refine ⟨(g.id, g.name), ?_, hgid⟩
    unfold get_genres_db
    exact List.mem_map_of_mem _ ((isort_perm _ _).mem_iff.mpr hgmem)

/-- Witness for C7 at a concrete state: genre 1 is referenced by record 1,
so its deletion is refused and it stays listed. -/
theorem c7_genre_delete_witness :
    api_delete_genre dbW7 1 =
      (.clientErr "genre in use by records, cannot delete", dbW7) ∧
    ((get_genres_db dbW7).map (fun e => e.1)).contains 1 = true := by
  refine ⟨(c7_genre_delete_guard dbW7 1 (by decide) (by decide)).1, ?_⟩
  obtain ⟨e, he, hid⟩ := (c7_genre_delete_guard dbW7 1 (by decide) (by decide)).2
  have hmem : (1 : Nat) ∈ (get_genres_db dbW7).map (fun e => e.1) :=
    hid ▸ List.mem_map_of_mem _ he
  simpa using hmem

/- ------------------------------------------------------------------
Claim C10.
------------------------------------------------------------------ -/

/-- C10 (amended): when the `recordStores` table exists, deleting a record
id that does not occur in `Records` succeeds and leaves `Records`,
`Artists`, `Genres` and `Stores` unchanged; it also removes any stray
link rows carrying that record id (normally there are none). -/
theorem c10_delete_missing_id (db : DB) (rid : Nat)
    (hL : db.hasLinks = true)
    (hno : ∀ r ∈ db.records, r.id ≠ rid) :
    api_delete_record db rid =
      (.ok (), { db with links := db.links.filter (fun l => l.1 != rid) }) := by
  have hfind : db.records.find? (fun r => r.id == rid) = none :=
    List.find?_eq_none.mpr (fun r hr => by simpa using hno r hr)
  have hfilt : db.records.filter (fun r => r.id != rid) = db.records :=
    List.filter_eq_self.mpr (fun r hr => by simpa using hno r hr)
  unfold api_delete_record delete_record_db
  rw [hfind, hL]
  simp [hfilt]

/-- Witness for C10: deleting the absent record id 3 from a state holding
the link table returns success and changes nothing. -/
theorem c10_delete_missing_witness :
    api_delete_record db0 3 = (.ok (), db0) :=
  (c10_delete_missing_id db0 3 (by decide) (by decide)).trans (by decide)

/-- Counterexample to C10 as stated: on the database produced by
`init_db` (no `recordStores` table) deleting a nonexistent id raises
instead of succeeding; and with the table present, a stray link row for
the nonexistent id 5 *is* removed, so not every table is left
unchanged. -/
theorem c10_delete_missing_examples :
    api_delete_record dbAfterInit 1 =
      (.serverErr "no such table: recordStores", dbAfterInit) ∧
    api_delete_record dbC10 5 = (.ok (), { dbC10 with links := [] }) ∧
    dbC10.links ≠ [] := by
  decide

/-- `find_or_create_artist` never touches the other tables, the link
table, or their sequence counters. -/
theorem foc_artist_keeps (db : DB) (n : String) (c : Option String) :
    ((find_or_create_artist db n c).2).genres = db.genres ∧
    ((find_or_create_artist db n c).2).stores = db.stores ∧
    ((find_or_create_artist db n c).2).records = db.records ∧
    ((find_or_create_artist db n c).2).links = db.links ∧
    ((find_or_create_artist db n c).2).hasLinks = db.hasLinks ∧
    ((find_or_create_artist db n c).2).genreSeq = db.genreSeq ∧
    ((find_or_create_artist db n c).2).storeSeq = db.storeSeq ∧
    ((find_or_create_artist db n c).2).recordSeq = db.recordSeq := by
  unfold find_or_create_artist
  by_cases h : pyStrip n = ""
  · simp [h]
  · cases hf : db.artists.find? (fun a => a.name == pyStrip n) <;> simp [h, hf]

/-- `find_or_create_genre` never touches the other tables. -/
theorem foc_genre_keeps (db : DB) (n : String) :
    ((find_or_create_genre db n).2).artists = db.artists ∧
    ((find_or_create_genre db n).2).stores = db.stores ∧
    ((find_or_create_genre db n).2).records = db.records ∧
    ((find_or_create_genre db n).2).links = db.links ∧
    ((find_or_create_genre db n).2).hasLinks = db.hasLinks ∧
    ((find_or_create_genre db n).2).artistSeq = db.artistSeq ∧
    ((find_or_create_genre db n).2).storeSeq = db.storeSeq ∧
    ((find_or_create_genre db n).2).recordSeq = db.recordSeq := by
  unfold find_or_create_genre
  by_cases h : pyStrip n = ""
  · simp [h]
  · cases hf : db.genres.find? (fun g => g.name == pyStrip n) <;> simp [h, hf]

theorem focArtistOpt_keeps (db : DB) (an : Option String) :
    ((focArtistOpt db an).2).genres = db.genres ∧
    ((focArtistOpt db an).2).stores = db.stores ∧
    ((focArtistOpt db an).2).records = db.records ∧
    ((focArtistOpt db an).2).links = db.links ∧
    ((focArtistOpt db an).2).hasLinks = db.hasLinks ∧
    ((focArtistOpt db an).2).genreSeq = db.genreSeq ∧
    ((focArtistOpt db an).2).storeSeq = db.storeSeq ∧
    ((focArtistOpt db an).2).recordSeq = db.recordSeq := by
  cases an with
  | none => exact ⟨rfl, rfl, rfl, rfl, rfl, rfl, rfl, rfl⟩
  | some n => exact foc_artist_keeps db n none

theorem focGenreOpt_keeps (db : DB) (gn : Option String) :
    ((focGenreOpt db gn).2).artists = db.artists ∧
    ((focGenreOpt db gn).2).stores = db.stores ∧
    ((focGenreOpt db gn).2).records = db.records ∧
    ((focGenreOpt db gn).2).links = db.links ∧
    ((focGenreOpt db gn).2).hasLinks = db.hasLinks ∧
    ((focGenreOpt db gn).2).artistSeq = db.artistSeq ∧
    ((focGenreOpt db gn).2).storeSeq = db.storeSeq ∧
    ((focGenreOpt db gn).2).recordSeq = db.recordSeq := by
  cases gn with
  | none => exact ⟨rfl, rfl, rfl, rfl, rfl, rfl, rfl, rfl⟩
  | some n => exact foc_genre_keeps db n

/- ------------------------------------------------------------------
Claim C3.
------------------------------------------------------------------ -/

/-- C3 (amended): for every payload with year 1799 or 2101 or price
-0.01, record creation fails with a client validation error and no
`Records` row (and no link or store row) is inserted — although the
find-or-create calls that run before the validation may still have
inserted an `Artists` or `Genres` row. -/
theorem c3_invalid_payload_rejected (db : DB) (p : Payload)
    (h : p.year = some 1799 ∨ p.year = some 2101 ∨ p.price = some qNeg001) :
    (api_add_record db p).1.isClientErr = true ∧
    ((api_add_record db p).2).records = db.records ∧
    ((api_add_record db p).2).links = db.links ∧
    ((api_add_record db p).2).stores = db.stores := by
  unfold api_add_record
  cases ht : sanitize_text p.title with
  | none => exact ⟨rfl, rfl, rfl, rfl⟩
  | some title =>
    obtain ⟨-, hs1, hr1, hl1, -, -, -, -⟩ :=
      focArtistOpt_keeps db (sanitize_text p.artist_name)
    obtain ⟨-, hs2, hr2, hl2, -, -, -, -⟩ :=
      focGenreOpt_keeps (focArtistOpt db (sanitize_text p.artist_name)).2
        (sanitize_text p.genre)
    have hstores : ((focGenreOpt (focArtistOpt db (sanitize_text p.artist_name)).2
        (sanitize_text p.genre)).2).stores = db.stores := hs2.trans hs1
    have hrecords : ((focGenreOpt (focArtistOpt db (sanitize_text p.artist_name)).2
        (sanitize_text p.genre)).2).records = db.records := hr2.trans hr1
    have hlinks : ((focGenreOpt (focArtistOpt db (sanitize_text p.artist_name)).2
        (sanitize_text p.genre)).2).links = db.links := hl2.trans hl1
    rcases h with hy | hy | hp
    · rw [hy]
      have : parse_int (some (1799 : Int)) (some 1800) (some 2100) = none := by decide
      simp only [this]
      exact ⟨rfl, hrecords, hlinks, hstores⟩
    · rw [hy]
      have : parse_int (some (2101 : Int)) (some 1800) (some 2100) = none := by decide
      simp only [this]
      exact ⟨rfl, hrecords, hlinks, hstores⟩
    · cases hy2 : parse_int p.year (some 1800) (some 2100) with
      | none =>
        simp only [hy2]
        exact ⟨rfl, hrecords, hlinks, hstores⟩
      | some y =>
        rw [hp]
        have : parse_float (some qNeg001) (some 0) none = none := by decide
        simp only [hy2, this]
        exact ⟨rfl, hrecords, hlinks, hstores⟩

/-- Counterexample to C3 as stated: the payload `{title: "X",
artist_name: "Y", year: 1799, price: 5}` is rejected with a 400, yet an
`Artists` row for "Y" *was* inserted into the (initially empty)
database. -/
theorem c3_side_effect_insert_example :
    (api_add_record db0 pC3).1 =
      .clientErr "year must be a valid number between 1800 and 2100" ∧
    ((api_add_record db0 pC3).2).artists = [⟨1, "Y", none⟩] ∧
    db0.artists = [] := by
  decide

/- ------------------------------------------------------------------
Claim C5: helper lemmas per repository function.
------------------------------------------------------------------ -/

theorem foc_artist_idem (s : DB) (name : String) (country : Option String) :
    find_or_create_artist (find_or_create_artist s name country).2 name country =
      find_or_create_artist s name country := by
  unfold find_or_create_artist
  by_cases h : pyStrip name = ""
  · simp [h]
  · cases hf : s.artists.find? (fun a => a.name == pyStrip name) with
    | some a => simp [h, hf]
    | none =>
      simp [h, hf, List.find?_append]

theorem foc_genre_idem (s : DB) (name : String) :
    find_or_create_genre (find_or_create_genre s name).2 name =
      find_or_create_genre s name := by
  unfold find_or_create_genre
  by_cases h : pyStrip name = ""
  · simp [h]
  · cases hf : s.genres.find? (fun g => g.name == pyStrip name) with
    | some g => simp [h, hf]
    | none =>
      simp [h, hf, List.find?_append]

theorem foc_store_idem (s : DB) (name : String) (st ad : Option String) :
    find_or_create_store (find_or_create_store s name st ad).2 name st ad =
      find_or_create_store s name st ad := by
  unfold find_or_create_store
  by_cases h : pyStrip name = ""
  · simp [h]
  · by_cases hag : addrGiven ad
    · cases hf : s.stores.find? (fun x => x.name == pyStrip name && x.address == ad) with
      | some x => simp [h, hag, hf]
      | none =>
        simp [h, hag, hf, List.find?_append]
    · cases hf : s.stores.find? (fun x => x.name == pyStrip name) with
      | some x => simp [h, hag, hf]
      | none =>
        simp [h, hag, hf, List.find?_append]

theorem foc_artist_empty {name : String} (s : DB) (country : Option String)
    (h : pyStrip name = "") : find_or_create_artist s name country = (none, s) := by
  unfold find_or_create_artist
  simp [h]

theorem foc_genre_empty {name : String} (s : DB) (h : pyStrip name = "") :
    find_or_create_genre s name = (none, s) := by
  unfold find_or_create_genre
  simp [h]

theorem foc_store_empty {name : String} (s : DB) (st ad : Option String)
    (h : pyStrip name = "") : find_or_create_store s name st ad = (none, s) := by
  unfold find_or_create_store
  simp [h]

theorem foc_artist_count {name : String} (s : DB) (country : Option String)
    (h : pyStrip name ≠ "")
    (h0 : s.artists.countP (fun a => a.name == pyStrip name) = 0) :
    ((find_or_create_artist s name country).2).artists.countP
      (fun a => a.name == pyStrip name) = 1 := by
  have hf : s.artists.find? (fun a => a.name == pyStrip name) = none := by
    rw [List.find?_eq_none]
    intro a ha
    simpa using List.countP_eq_zero.mp h0 a ha
  unfold find_or_create_artist
  simp only [h, if_false, hf]
  rw [List.countP_append, h0]
  simp

theorem foc_genre_count {name : String} (s : DB) (h : pyStrip name ≠ "")
    (h0 : s.genres.countP (fun g => g.name == pyStrip name) = 0) :
    ((find_or_create_genre s name).2).genres.countP
      (fun g => g.name == pyStrip name) = 1 := by
  have hf : s.genres.find? (fun g => g.name == pyStrip name) = none := by
    rw [List.find?_eq_none]
    intro g hg
    simpa using List.countP_eq_zero.mp h0 g hg
  unfold find_or_create_genre
  simp only [h, if_false, hf]
  rw [List.countP_append, h0]
  simp

theorem foc_store_count {name : String} (s : DB) (st ad : Option String)
    (h : pyStrip name ≠ "")
    (h0 : s.stores.countP (fun x => x.name == pyStrip name &&
      (if addrGiven ad then x.address == ad else true)) = 0) :
    ((find_or_create_store s name st ad).2).stores.countP
      (fun x => x.name == pyStrip name &&
        (if addrGiven ad then x.address == ad else true)) = 1 := by
  unfold find_or_create_store
  by_cases hag : addrGiven ad
  · have h0' : s.stores.countP (fun x => x.name == pyStrip name && x.address == ad) = 0 := by
      simpa [hag] using h0
    have hf : s.stores.find? (fun x => x.name == pyStrip name && x.address == ad) = none := by
      rw [List.find?_eq_none]
      intro x hx
      simpa using List.countP_eq_zero.mp h0' x hx
    simp [h, hag, hf, List.countP_append, h0']
  · have h0' : s.stores.countP (fun x => x.name == pyStrip name) = 0 := by
      simpa [hag] using h0
    have hf : s.stores.find? (fun x => x.name == pyStrip name) = none := by
      rw [List.find?_eq_none]
      intro x hx
      simpa using List.countP_eq_zero.mp h0' x hx
    simp [h, hag, hf, List.countP_append, h0']

/- ------------------------------------------------------------------
Claim C5.
------------------------------------------------------------------ -/

/-- C5: find-or-create for artist, genre and store is idempotent (the
second identical call returns the same id and leaves the state exactly
as after the first call); starting from a state without a matching row,
the call inserts exactly one row; and an empty or whitespace-only name
is a no-op returning none. -/
theorem c5_find_or_create_idempotent (s : DB) (name : String)
    (country st ad : Option String) :
    (find_or_create_artist (find_or_create_artist s name country).2 name country =
        find_or_create_artist s name country ∧
      find_or_create_genre (find_or_create_genre s name).2 name =
        find_or_create_genre s name ∧
      find_or_create_store (find_or_create_store s name st ad).2 name st ad =
        find_or_create_store s name st ad) ∧
    (pyStrip name = "" →
      find_or_create_artist s name country = (none, s) ∧
      find_or_create_genre s name = (none, s) ∧
      find_or_create_store s name st ad = (none, s)) ∧
    (pyStrip name ≠ "" →
      (s.artists.countP (fun a => a.name == pyStrip name) = 0 →
        ((find_or_create_artist s name country).2).artists.countP
          (fun a => a.name == pyStrip name) = 1) ∧
      (s.genres.countP (fun g => g.name == pyStrip name) = 0 →
        ((find_or_create_genre s name).2).genres.countP
          (fun g => g.name == pyStrip name) = 1) ∧
      (s.stores.countP (fun x => x.name == pyStrip name &&
          (if addrGiven ad then x.address == ad else true)) = 0 →
        ((find_or_create_store s name st ad).2).stores.countP
          (fun x => x.name == pyStrip name &&
            (if addrGiven ad then x.address == ad else true)) = 1)) := by
  refine ⟨⟨foc_artist_idem s name country, foc_genre_idem s name,
    foc_store_idem s name st ad⟩, ?_, ?_⟩
  · intro h
    exact ⟨foc_artist_empty s country h, foc_genre_empty s h,
      foc_store_empty s st ad h⟩
  · intro h
    exact ⟨foc_artist_count s country h, foc_genre_count s h,
      foc_store_count s st ad h⟩

/-- Witness for C5 at concrete inputs: creating "Jazz" twice in the empty
database returns genre id 1 twice with a single stored row, and a
whitespace-only artist name is a no-op. -/
theorem c5_find_or_create_witness :
    find_or_create_genre (find_or_create_genre db0 "Jazz").2 "Jazz" =
      find_or_create_genre db0 "Jazz" ∧
    find_or_create_artist db0 "   " none = (none, db0) ∧
    ((find_or_create_genre db0 "Jazz").2).genres.countP
      (fun g => g.name == pyStrip "Jazz") = 1 := by
  refine ⟨(c5_find_or_create_idempotent db0 "Jazz" none none none).1.2.1, ?_, ?_⟩
  · exact ((c5_find_or_create_idempotent db0 "   " none none none).2.1 (by decide)).1
  · exact ((c5_find_or_create_idempotent db0 "Jazz" none none none).2.2
      (by decide)).2.1 (by decide)

/-- Witness for C3: the concrete payload `pC3` (year 1799) satisfies the
hypothesis and is rejected without touching `Records`. -/
theorem c3_invalid_payload_witness :
    (pC3.year = some 1799 ∨ pC3.year = some 2101 ∨ pC3.price = some qNeg001) ∧
    (api_add_record db0 pC3).1.isClientErr = true ∧
    ((api_add_record db0 pC3).2).records = db0.records :=
  ⟨Or.inl rfl, (c3_invalid_payload_rejected db0 pC3 (Or.inl rfl)).1,
    (c3_invalid_payload_rejected db0 pC3 (Or.inl rfl)).2.1⟩

/- ------------------------------------------------------------------
Claim C6.
------------------------------------------------------------------ -/

/-- C6 (amended): when the `recordStores` table exists, deleting a record
removes its link rows and the record, and then removes the record's
artist exactly when no other record references that artist (deleting the
only record of an artist removes the artist; deleting one of two leaves
the artist present); genres and stores are untouched. -/
theorem c6_delete_cascade_orphan (db : DB) (rid : Nat) (r : RecordRow) (aid : Nat)
    (hL : db.hasLinks = true)
    (hfind : db.records.find? (fun x => x.id == rid) = some r)
    (ha : r.artist_id = some aid) (haz : aid ≠ 0) :
    ∃ db', delete_record_db db rid = .ok db' ∧
      db'.records = db.records.filter (fun x => x.id != rid) ∧
      db'.links = db.links.filter (fun l => l.1 != rid) ∧
      db'.genres = db.genres ∧
      db'.stores = db.stores ∧
      db'.artists = (if db.records.countP
          (fun x => x.artist_id == some aid && x.id != rid) = 0 then
        db.artists.filter (fun a => a.id != aid) else db.artists) ∧
      (db.records.countP (fun x => x.artist_id == some aid && x.id != rid) = 0 →
        ∀ a ∈ db'.artists, a.id ≠ aid) ∧
      (0 < db.records.countP (fun x => x.artist_id == some aid && x.id != rid) →
        db'.artists = db.artists) := by
  have hbind : (db.records.find? (fun x => x.id == rid)).bind (fun x => x.artist_id) =
      some aid := by
    rw [hfind]
    simpa using ha
  have hcnt : (db.records.filter (fun x => x.id != rid)).countP
      (fun x => x.artist_id == some aid) =
      db.records.countP (fun x => x.artist_id == some aid && x.id != rid) :=
    List.countP_filter _ _ _
  have hne : (aid == 0) = false := by simpa using haz
  unfold delete_record_db
  simp only [hbind, hL, if_true, hne, Bool.false_eq_true, if_false, hcnt]
  by_cases h0 : db.records.countP (fun x => x.artist_id == some aid && x.id != rid) = 0
  · rw [if_pos (by simpa using h0)]
    refine ⟨_, rfl, rfl, rfl, rfl, rfl, ?_, ?_, ?_⟩
    · simp [h0]
    · intro _ a hamem
      have := List.of_mem_filter hamem
      simpa using this
    · intro hpos
      omega
  · rw [if_neg (by simpa using h0)]
    refine ⟨_, rfl, rfl, rfl, rfl, rfl, ?_, ?_, ?_⟩
    · simp [h0]
    · intro hc
      exact absurd hc h0
    · intro _
      rfl

/-- Witness for C6: in the state where artist 1 is referenced only by
record 1, deleting record 1 succeeds and removes both the record and the
artist. -/
theorem c6_delete_cascade_witness :
    exceptOk (delete_record_db dbC6 1) = true ∧
    (exceptOkOr (delete_record_db dbC6 1) dbC6).artists = [] ∧
    (exceptOkOr (delete_record_db dbC6 1) dbC6).records = [] := by
  obtain ⟨db', heq, hrec, -, -, -, hart, -, -⟩ :=
    c6_delete_cascade_orphan dbC6 1
      ⟨1, "T", some 1, none, some 1990, none, some 5, none⟩ 1
      (by decide) (by decide) (by decide) (by decide)
  rw [heq]
  refine ⟨rfl, ?_, ?_⟩
  · show db'.artists = []
    rw [hart]
    decide
  · show db'.records = []
    rw [hrec]
    decide

/-- Counterexample to C6 as stated: in the same state but without the
`recordStores` table (the state `init_db` actually produces), deleting
the only record referencing artist 1 raises instead of removing record
and artist. -/
theorem c6_delete_without_link_table_example :
    delete_record_db dbC6n 1 = .error "no such table: recordStores" ∧
    dbC6n.records = [⟨1, "T", some 1, none, some 1990, none, some 5, none⟩] ∧
    dbC6n.artists = [⟨1, "A", none⟩] := by
  decide

/- ------------------------------------------------------------------
Claim C9: helper lemmas.
------------------------------------------------------------------ -/

theorem parse_int_bounds {v : Option Int} {lo hi y : Int}
    (h : parse_int v (some lo) (some hi) = some y) : lo ≤ y ∧ y ≤ hi := by
  cases v with
  | none => cases h
  | some i =>
    unfold parse_int at h
    by_cases h1 : i < lo
    · simp [h1] at h
    · by_cases h2 : hi < i
      · simp [h1, h2] at h
      · simp [h1, h2] at h
        omega

theorem parse_int_min {v : Option Int} {lo y : Int}
    (h : parse_int v (some lo) none = some y) : lo ≤ y := by
  cases v with
  | none => cases h
  | some i =>
    unfold parse_int at h
    by_cases h1 : i < lo
    · simp [h1] at h
    · simp [h1] at h
      omega

theorem parse_float_min {v : Option ℚ} {lo q : ℚ}
    (h : parse_float v (some lo) none = some q) : lo ≤ q := by
  cases v with
  | none => cases h
  | some f =>
    unfold parse_float at h
    by_cases h1 : f < lo
    · simp [h1] at h
    · simp [h1] at h
      rw [← h]
      exact le_of_not_lt h1

theorem filter_ne_then_eq (rid : Nat) (ls : List (Nat × Nat)) :
    (ls.filter (fun l => l.1 != rid)).filter (fun l => l.1 == rid) = [] := by
  rw [List.filter_eq_nil_iff]
  intro a ha
  have : (a.1 != rid) = true := (List.mem_filter.mp ha).2
  simp at this
  simp [this]

theorem filter_ne_idem (rid : Nat) (ls : List (Nat × Nat)) :
    (ls.filter (fun l => l.1 != rid)).filter (fun l => l.1 != rid) =
      ls.filter (fun l => l.1 != rid) :=
  List.filter_eq_self.mpr (fun a ha => (List.mem_filter.mp ha).2)

theorem filtered_not_contains (rid sid : Nat) (ls : List (Nat × Nat)) :
    ((ls.filter (fun l => l.1 != rid)).contains (rid, sid)) = false := by
  by_cases hmem : (rid, sid) ∈ ls.filter (fun l => l.1 != rid)
  · have : ((rid, sid).1 != rid) = true := (List.mem_filter.mp hmem).2
    simp at this
  · simpa using hmem

/-- `update_record_db` on a validated data dict that contains the
`store_id` key, when the link table exists: the scalar columns of the
matching record are overwritten and the record's link rows are replaced
by the single given store (or just removed when none is given). -/
theorem update_db_links (db2 : DB) (rid : Nat) (t : String) (ai gi : Option Nat)
    (y : Int) (cond : Option String) (q : ℚ) (pd : Option String) (sid : Option Nat)
    (hL : db2.hasLinks = true)
    (hy1 : 1800 ≤ y) (hy2 : y ≤ 2100) (hq : 0 ≤ q)
    (hsid : ∀ s, sid = some s → s ≠ 0) :
    ∃ db3, update_record_db db2 rid ⟨some t, ai, gi, some y, cond, some q, pd, sid, true⟩ =
        .ok db3 ∧
      db3.links = (db2.links.filter (fun l => l.1 != rid)) ++
        (match sid with | some s => [(rid, s)] | none => []) := by
  unfold update_record_db
  dsimp only
  rw [if_neg (by omega), if_neg (by exact not_lt.mpr hq), hL]
  simp only [if_true]
  cases sid with
  | none => exact ⟨_, rfl, by simp⟩
  | some s =>
    have hs0 : (s == 0) = false := by simpa using hsid s rfl
    simp only [hs0, Bool.false_eq_true, if_false]
    unfold insertLink
    rw [filtered_not_contains]
    exact ⟨_, rfl, by simp⟩

/- ------------------------------------------------------------------
Claim C9.
------------------------------------------------------------------ -/

/-- C9 (amended): when the `recordStores` table exists, every update
through `PUT /records/{rid}` with a payload passing validation replaces
the record's entire link set: afterwards the links of `rid` are exactly
the single parsed store when `store_id` is a valid positive integer and
empty otherwise, while links of other records are untouched.  (Without
the link table the same call raises instead, see the counterexample.) -/
theorem c9_update_replaces_links (db : DB) (rid : Nat) (p : Payload)
    (hL : db.hasLinks = true)
    (ht : sanitize_text p.title ≠ none)
    (hy : parse_int p.year (some 1800) (some 2100) ≠ none)
    (hp : parse_float p.price (some 0) none ≠ none) :
    (api_update_record db rid p).1 = .ok () ∧
    ((api_update_record db rid p).2).links.filter (fun l => l.1 == rid) =
      (match parse_int p.store_id (some 1) none with
        | some s => [(rid, s.toNat)]
        | none => []) ∧
    ((api_update_record db rid p).2).links.filter (fun l => l.1 != rid) =
      db.links.filter (fun l => l.1 != rid) := by
  obtain ⟨t, ht'⟩ := Option.ne_none_iff_exists'.mp ht
  obtain ⟨y, hy'⟩ := Option.ne_none_iff_exists'.mp hy
  obtain ⟨q, hq'⟩ := Option.ne_none_iff_exists'.mp hp
  obtain ⟨hy1, hy2⟩ := parse_int_bounds hy'
  have hq0 : (0 : ℚ) ≤ q := parse_float_min hq'
  obtain ⟨-, -, -, hl1, hh1, -, -, -⟩ :=
    focArtistOpt_keeps db (sanitize_text p.artist_name)
  obtain ⟨-, -, -, hl2, hh2, -, -, -⟩ :=
    focGenreOpt_keeps (focArtistOpt db (sanitize_text p.artist_name)).2
      (sanitize_text p.genre)
  have hdbl : ((focGenreOpt (focArtistOpt db (sanitize_text p.artist_name)).2
      (sanitize_text p.genre)).2).links = db.links := hl2.trans hl1
  have hdbh : ((focGenreOpt (focArtistOpt db (sanitize_text p.artist_name)).2
      (sanitize_text p.genre)).2).hasLinks = true := (hh2.trans hh1).trans hL
  cases hps : parse_int p.store_id (some 1) none with
  | none =>
    obtain ⟨db3, heq3, hlinks3⟩ :=
      update_db_links
        (focGenreOpt (focArtistOpt db (sanitize_text p.artist_name)).2
          (sanitize_text p.genre)).2
        rid t
        (focArtistOpt db (sanitize_text p.artist_name)).1
        (focGenreOpt (focArtistOpt db (sanitize_text p.artist_name)).2
          (sanitize_text p.genre)).1
        y (sanitize_text p.condition) q (parse_date_yyyy_mm_dd p.purchase_date)
        none hdbh hy1 hy2 hq0 (by intro s hs; cases hs)
    unfold api_update_record
    rw [ht']
    simp only [hy', hq', hps, Option.map_none', heq3]
    refine ⟨by trivial, ?_, ?_⟩
    · show db3.links.filter (fun l => l.1 == rid) = []
      rw [hlinks3, List.filter_append, filter_ne_then_eq]
      simp
    · show db3.links.filter (fun l => l.1 != rid) = db.links.filter (fun l => l.1 != rid)
      rw [hlinks3, List.filter_append, filter_ne_idem, hdbl]
      simp
  | some i =>
    have hi : (1 : Int) ≤ i := parse_int_min hps
    obtain ⟨db3, heq3, hlinks3⟩ :=
      update_db_links
        (focGenreOpt (focArtistOpt db (sanitize_text p.artist_name)).2
          (sanitize_text p.genre)).2
        rid t
        (focArtistOpt db (sanitize_text p.artist_name)).1
        (focGenreOpt (focArtistOpt db (sanitize_text p.artist_name)).2
          (sanitize_text p.genre)).1
        y (sanitize_text p.condition) q (parse_date_yyyy_mm_dd p.purchase_date)
        (some i.toNat) hdbh hy1 hy2 hq0 (by intro s hs; simp at hs; omega)
    unfold api_update_record
    rw [ht']
    simp only [hy', hq', hps, Option.map_some', heq3]
    refine ⟨by trivial, ?_, ?_⟩
    · show db3.links.filter (fun l => l.1 == rid) = [(rid, i.toNat)]
      rw [hlinks3, List.filter_append, filter_ne_then_eq]
      simp
    · show db3.links.filter (fun l => l.1 != rid) = db.links.filter (fun l => l.1 != rid)
      rw [hlinks3, List.filter_append, filter_ne_idem, hdbl]
      simp

/-- Witness for C9: updating record 1 (currently linked to store 1) with
a payload naming store 2 succeeds and leaves exactly the link to store
2. -/
theorem c9_update_replaces_links_witness :
    (api_update_record dbW2 1 pC9).1 = .ok () ∧
    ((api_update_record dbW2 1 pC9).2).links.filter (fun l => l.1 == 1) = [(1, 2)] := by
  obtain ⟨h1, h2, -⟩ :=
    c9_update_replaces_links dbW2 1 pC9 (by decide) (by decide) (by decide) (by decide)
  refine ⟨h1, ?_⟩
  rw [h2]
  decide

/-- Counterexample to C9 as stated: on a database without the
`recordStores` table (which is what `init_db` produces), the same valid
update raises a server error and no link replacement happens. -/
theorem c9_update_without_link_table_example :
    (api_update_record dbC9 1 pC9).1 = .serverErr "no such table: recordStores" ∧
    ((api_update_record dbC9 1 pC9).2).links.filter (fun l => l.1 == 1) = [] ∧
    (api_update_record dbC9 1 pC9).2 = dbC9 := by
  decide

/- ------------------------------------------------------------------
Claim C4: helper lemmas.
------------------------------------------------------------------ -/

theorem parse_int_some_of_le {lo hi y : Int} (h1 : lo ≤ y) (h2 : y ≤ hi) :
    parse_int (some y) (some lo) (some hi) = some y := by
  unfold parse_int
  dsimp only
  rw [if_neg, if_neg]
  · simp
    omega
  · simp
    omega

theorem parse_float_some_of_le {lo q : ℚ} (h1 : lo ≤ q) :
    parse_float (some q) (some lo) none = some q := by
  unfold parse_float
  dsimp only
  rw [if_neg (by simpa using not_lt.mpr h1), if_neg (by simp)]

/-- `find_or_create_artist` on a non-empty stripped name over a
well-formed state: it returns an id under which the (old or new) artist
row with exactly the stripped name can be looked up, and preserves
well-formedness and every other table. -/
theorem foc_artist_found (db : DB) (n : String) (c : Option String)
    (h : pyStrip n ≠ "") (hwf : db.WF) :
    ∃ aid db1, find_or_create_artist db n c = (some aid, db1) ∧
      db1.genres = db.genres ∧ db1.genreSeq = db.genreSeq ∧
      db1.stores = db.stores ∧ db1.records = db.records ∧
      db1.links = db.links ∧ db1.hasLinks = db.hasLinks ∧
      db1.recordSeq = db.recordSeq ∧
      (db1.artists.find? (fun a => a.id == aid)).map (fun a => a.name) =
        some (pyStrip n) ∧
      db1.WF := by
  unfold find_or_create_artist
  rw [if_neg h]
  cases hf : db.artists.find? (fun a => a.name == pyStrip n) with
  | some a =>
    have hmem : a ∈ db.artists := List.mem_of_find?_eq_some hf
    have hname : a.name = pyStrip n := by simpa using List.find?_some hf
    have hfid : db.artists.find? (fun x => x.id == a.id) = some a := by
      have := find?_key_unique (fun x => x.id) hwf.1.1 hmem
      simpa using this
    exact ⟨a.id, db, rfl, rfl, rfl, rfl, rfl, rfl, rfl, rfl,
      by rw [hfid]; simp [hname], hwf⟩
  | none =>
    refine ⟨db.artistSeq + 1, _, rfl, rfl, rfl, rfl, rfl, rfl, rfl, rfl, ?_, ?_⟩
    · have hleft : db.artists.find? (fun x => x.id == db.artistSeq + 1) = none := by
        rw [List.find?_eq_none]
        intro x hx
        have : x.id ≤ db.artistSeq := hwf.1.2 x.id (List.mem_map_of_mem _ hx)
        simp
        omega
      rw [List.find?_append, hleft]
      simp
    · obtain ⟨⟨hnd, hbd⟩, hg, hs, hr⟩ := hwf
      refine ⟨⟨?_, ?_⟩, hg, hs, hr⟩
      · rw [List.map_append]
        simp only [List.map_cons, List.map_nil]
        rw [List.nodup_append]
        refine ⟨hnd, List.nodup_singleton _, ?_⟩
        intro i hi
        have : i ≤ db.artistSeq := hbd i hi
        simp
        omega
      · intro i hi
        rw [List.map_append] at hi
        show i ≤ db.artistSeq + 1
        rcases List.mem_append.mp hi with hil | hir
        · have := hbd i hil
          omega
        · simp at hir
          omega

/-- The genre analogue of `foc_artist_found`. -/
theorem foc_genre_found (db : DB) (n : String)
    (h : pyStrip n ≠ "") (hwf : db.WF) :
    ∃ gid db1, find_or_create_genre db n = (some gid, db1) ∧
      db1.artists = db.artists ∧ db1.artistSeq = db.artistSeq ∧
      db1.stores = db.stores ∧ db1.records = db.records ∧
      db1.links = db.links ∧ db1.hasLinks = db.hasLinks ∧
      db1.recordSeq = db.recordSeq ∧
      (db1.genres.find? (fun g => g.id == gid)).map (fun g => g.name) =
        some (pyStrip n) ∧
      db1.WF := by
  unfold find_or_create_genre
  rw [if_neg h]
  cases hf : db.genres.find? (fun g => g.name == pyStrip n) with
  | some g =>
    have hmem : g ∈ db.genres := List.mem_of_find?_eq_some hf
    have hname : g.name = pyStrip n := by simpa using List.find?_some hf
    have hfid : db.genres.find? (fun x => x.id == g.id) = some g := by
      have := find?_key_unique (fun x => x.id) hwf.2.1.1 hmem
      simpa using this
    exact ⟨g.id, db, rfl, rfl, rfl, rfl, rfl, rfl, rfl, rfl,
      by rw [hfid]; simp [hname], hwf⟩
  | none =>
    refine ⟨db.genreSeq + 1, _, rfl, rfl, rfl, rfl, rfl, rfl, rfl, rfl, ?_, ?_⟩
    · have hleft : db.genres.find? (fun x => x.id == db.genreSeq + 1) = none := by
        rw [List.find?_eq_none]
        intro x hx
        have : x.id ≤ db.genreSeq := hwf.2.1.2 x.id (List.mem_map_of_mem _ hx)
        simp
        omega
      rw [List.find?_append, hleft]
      simp
    · obtain ⟨ha, ⟨hnd, hbd⟩, hs, hr⟩ := hwf
      refine ⟨ha, ⟨?_, ?_⟩, hs, hr⟩
      · rw [List.map_append]
        simp only [List.map_cons, List.map_nil]
        rw [List.nodup_append]
        refine ⟨hnd, List.nodup_singleton _, ?_⟩
        intro i hi
        have : i ≤ db.genreSeq := hbd i hi
        simp
        omega
      · intro i hi
        rw [List.map_append] at hi
        show i ≤ db.genreSeq + 1
        rcases List.mem_append.mp hi with hil | hir
        · have := hbd i hil
          omega
        · simp at hir
          omega

/-- The optional artist find-or-create step of the facade: the stored
name reachable through the returned id is the stripped input name (and
none exactly when no name was given); well-formedness and the other
tables are preserved. -/
theorem focArtistOpt_spec (db : DB) (an : Option String) (hwf : db.WF)
    (hn : ∀ n, an = some n → pyStrip n ≠ "") :
    ((((focArtistOpt db an).1).bind (fun aid =>
        ((focArtistOpt db an).2).artists.find? (fun a => a.id == aid))).map
      (fun a => a.name) = an.map pyStrip) ∧
    ((focArtistOpt db an).2).WF := by
  cases an with
  | none => exact ⟨rfl, hwf⟩
  | some n =>
    obtain ⟨aid, db1, heq, -, -, -, -, -, -, -, hfind, hwf1⟩ :=
      foc_artist_found db n none (hn n rfl) hwf
    unfold focArtistOpt
    dsimp only
    rw [heq]
    exact ⟨by simpa using hfind, hwf1⟩

/-- The genre analogue of `focArtistOpt_spec`. -/
theorem focGenreOpt_spec (db : DB) (gn : Option String) (hwf : db.WF)
    (hn : ∀ n, gn = some n → pyStrip n ≠ "") :
    ((((focGenreOpt db gn).1).bind (fun gid =>
        ((focGenreOpt db gn).2).genres.find? (fun g => g.id == gid))).map
      (fun g => g.name) = gn.map pyStrip) ∧
    ((focGenreOpt db gn).2).WF := by
  cases gn with
  | none => exact ⟨rfl, hwf⟩
  | some n =>
    obtain ⟨gid, db1, heq, -, -, -, -, -, -, -, hfind, hwf1⟩ :=
      foc_genre_found db n (hn n rfl) hwf
    unfold focGenreOpt
    dsimp only
    rw [heq]
    exact ⟨by simpa using hfind, hwf1⟩

/-- `add_record_db` on validated data whose store id is absent or whose
link table exists: it returns the next record id and appends exactly the
corresponding row, leaving the other tables unchanged. -/
theorem add_db_ok (db2 : DB) (d : RecData) (t : String) (y : Int) (q : ℚ)
    (htitle : d.title = some t) (hyear : d.year = some y)
    (hy1 : 1800 ≤ y) (hy2 : y ≤ 2100)
    (hprice : d.price = some q) (hq : 0 ≤ q)
    (hstore : d.store_id = none ∨ db2.hasLinks = true) :
    ∃ db3, add_record_db db2 d = .ok (db2.recordSeq + 1, db3) ∧
      db3.artists = db2.artists ∧ db3.genres = db2.genres ∧
      db3.stores = db2.stores ∧ db3.hasLinks = db2.hasLinks ∧
      db3.records = db2.records ++
        [⟨db2.recordSeq + 1, t, d.artist_id, d.genre_id, some y, d.condition,
          some q, d.purchase_date⟩] := by
  unfold add_record_db
  rw [htitle, hyear, hprice]
  dsimp only
  rw [if_neg (by omega), if_neg (by exact not_lt.mpr hq)]
  cases hs : d.store_id with
  | none => exact ⟨_, rfl, rfl, rfl, rfl, rfl, rfl⟩
  | some sid =>
    have hL : db2.hasLinks = true := by
      rcases hstore with hl | hr
      · rw [hs] at hl; cases hl
      · exact hr
    dsimp only
    by_cases hz : (sid == 0) = true
    · rw [if_pos hz]
      exact ⟨_, rfl, rfl, rfl, rfl, rfl, rfl⟩
    · rw [if_neg hz, if_pos hL]
      unfold insertLink
      split
      · exact ⟨_, rfl, rfl, rfl, rfl, rfl, rfl⟩
      · exact ⟨_, rfl, rfl, rfl, rfl, rfl, rfl⟩

/-- Every record row appears (as its joined view) in the output of
`fetch_all_records_db`. -/
theorem mem_fetch {db : DB} {r : RecordRow} (hr : r ∈ db.records) :
    recordView db r ∈ fetch_all_records_db db := by
  unfold fetch_all_records_db sortIdDesc
  exact List.mem_map_of_mem _ ((isort_perm _ _).mem_iff.mpr hr)

/- ------------------------------------------------------------------
Claim C4.
------------------------------------------------------------------ -/

/-- C4 (amended): over any well-formed state, for every payload with a
title that sanitizes to something non-empty, an integer year in
[1800, 2100] and a price >= 0 — provided the payload names no valid
store or the `recordStores` table exists — creation succeeds with the
new record id, and the list endpoint afterwards contains a row with that
id whose title, year, price, condition, purchase date and artist/genre
names match the (sanitized) payload. -/
theorem c4_valid_create_retrievable (db : DB) (p : Payload) (t : String)
    (y : Int) (q : ℚ)
    (hwf : db.WF)
    (ht : sanitize_text p.title = some t)
    (hy : p.year = some y) (hy1 : 1800 ≤ y) (hy2 : y ≤ 2100)
    (hq : p.price = some q) (hq0 : 0 ≤ q)
    (hstore : parse_int p.store_id (some 1) none = none ∨ db.hasLinks = true) :
    ∃ rid db', api_add_record db p = (.ok rid, db') ∧
      ∃ v ∈ api_get_records db', v.record_id = rid ∧ v.title = t ∧
        v.year = some y ∧ v.price = some q ∧
        v.condition = sanitize_text p.condition ∧
        v.purchase_date = parse_date_yyyy_mm_dd p.purchase_date ∧
        v.artist = (sanitize_text p.artist_name).map pyStrip ∧
        v.genre = (sanitize_text p.genre).map pyStrip := by
  have hpy : parse_int p.year (some 1800) (some 2100) = some y := by
    rw [hy]; exact parse_int_some_of_le hy1 hy2
  have hpq : parse_float p.price (some 0) none = some q := by
    rw [hq]; exact parse_float_some_of_le hq0
  obtain ⟨hAview, hwf1⟩ := focArtistOpt_spec db (sanitize_text p.artist_name) hwf
    (fun n hn => sanitize_strip_nonempty hn)
  obtain ⟨-, -, -, -, kah, -, -, -⟩ := focArtistOpt_keeps db (sanitize_text p.artist_name)
  obtain ⟨hGview, hwf2⟩ := focGenreOpt_spec (focArtistOpt db (sanitize_text p.artist_name)).2
    (sanitize_text p.genre) hwf1 (fun n hn => sanitize_strip_nonempty hn)
  obtain ⟨kga, -, -, -, kgh, -, -, -⟩ :=
    focGenreOpt_keeps (focArtistOpt db (sanitize_text p.artist_name)).2
      (sanitize_text p.genre)
  have hstore' : ((parse_int p.store_id (some 1) none).map Int.toNat = none) ∨
      ((focGenreOpt (focArtistOpt db (sanitize_text p.artist_name)).2
        (sanitize_text p.genre)).2).hasLinks = true := by
    rcases hstore with hn | hh
    · left; rw [hn]; rfl
    · right; rw [kgh, kah, hh]
  obtain ⟨db3, heqadd, hart3, hgen3, hsto3, hhl3, hrec3⟩ :=
    add_db_ok
      (focGenreOpt (focArtistOpt db (sanitize_text p.artist_name)).2
        (sanitize_text p.genre)).2
      ⟨some t, (focArtistOpt db (sanitize_text p.artist_name)).1,
        (focGenreOpt (focArtistOpt db (sanitize_text p.artist_name)).2
          (sanitize_text p.genre)).1,
        some y, sanitize_text p.condition, some q,
        parse_date_yyyy_mm_dd p.purchase_date,
        (parse_int p.store_id (some 1) none).map Int.toNat, true⟩
      t y q rfl rfl hy1 hy2 rfl hq0 hstore'
  have hmem : (⟨((focGenreOpt (focArtistOpt db (sanitize_text p.artist_name)).2
        (sanitize_text p.genre)).2).recordSeq + 1, t,
      (focArtistOpt db (sanitize_text p.artist_name)).1,
      (focGenreOpt (focArtistOpt db (sanitize_text p.artist_name)).2
        (sanitize_text p.genre)).1,
      some y, sanitize_text p.condition, some q,
      parse_date_yyyy_mm_dd p.purchase_date⟩ : RecordRow) ∈ db3.records := by
    rw [hrec3]
    exact List.mem_append_right _ (List.mem_singleton_self _)
  have hv := @mem_fetch db3 _ hmem
  unfold api_add_record
  rw [ht]
  dsimp only
  rw [hpy, hpq]
  dsimp only
  rw [heqadd]
  refine ⟨((focGenreOpt (focArtistOpt db (sanitize_text p.artist_name)).2
      (sanitize_text p.genre)).2).recordSeq + 1, db3, rfl, ?_⟩
  refine ⟨_, hv, rfl, rfl, rfl, rfl, rfl, rfl, ?_, ?_⟩
  · show (((focArtistOpt db (sanitize_text p.artist_name)).1).bind
        (fun aid => db3.artists.find? (fun a => a.id == aid))).map (fun a => a.name) =
      (sanitize_text p.artist_name).map pyStrip
    rw [hart3, kga]
    exact hAview
  · show (((focGenreOpt (focArtistOpt db (sanitize_text p.artist_name)).2
        (sanitize_text p.genre)).1).bind
        (fun gid => db3.genres.find? (fun g => g.id == gid))).map (fun g => g.name) =
      (sanitize_text p.genre).map pyStrip
    rw [hgen3]
    exact hGview

/-- Witness for C4: adding the fully valid payload `pC4` to the empty
(well-formed) database with link table succeeds. -/
theorem c4_valid_create_witness :
    DB.WF db0 ∧ (api_add_record db0 pC4).1.isOk = true := by
  refine ⟨by decide, ?_⟩
  obtain ⟨rid, db', heq, -⟩ :=
    c4_valid_create_retrievable db0 pC4 "Kind of Blue" 1959 25 (by decide)
      (by decide) rfl (by decide) (by decide) rfl (by decide) (Or.inl (by decide))
  rw [heq]
  rfl

/-- Counterexample to C4 as stated: on the database `init_db` actually
produces (no `recordStores` table), the same valid payload with a store
id raises a server error instead of succeeding, and no record is
created. -/
theorem c4_store_link_table_missing_example :
    (api_add_record dbAfterInit pC4s).1 = .serverErr "no such table: recordStores" ∧
    ((api_add_record dbAfterInit pC4s).2).records = [] := by
  decide

/- ------------------------------------------------------------------
Claim C2: helper lemmas.
------------------------------------------------------------------ -/

theorem filter_ne_nil_iff {α : Type} (p : α → Bool) (l : List α) :
    l.filter p ≠ [] ↔ ∃ a ∈ l, p a = true := by
  rw [Ne, List.filter_eq_nil_iff]
  push_neg
  simp

theorem sum_map_ones {α : Type} (l : List α) (g : α → Nat)
    (h : ∀ a ∈ l, g a = 1) : (l.map g).sum = l.length := by
  induction l with
  | nil => rfl
  | cons a as ih =>
    simp only [List.map_cons, List.sum_cons, List.length_cons, h a (by simp)]
    rw [ih (fun x hx => h x (by simp [hx]))]
    omega

theorem linkCells_ne_nil (db : DB) (r : RecordRow) : linkCells db r ≠ [] := by
  unfold linkCells
  cases hls : (db.links.filter (fun l => l.1 == r.id)).map (fun l => l.2) with
  | nil => simp [hls]
  | cons c cs => simp [hls]

theorem mem_cells_some (db : DB) (r : RecordRow) (s : Nat) :
    some s ∈ linkCells db r ↔ (r.id, s) ∈ db.links := by
  constructor
  · intro h
    by_cases he : ((db.links.filter (fun l => l.1 == r.id)).map (fun l => l.2)).isEmpty
    · simp [linkCells, he] at h
    · simp only [linkCells, he, if_false, Bool.false_eq_true] at h
      obtain ⟨x, hx, hxs⟩ := List.mem_map.mp h
      obtain ⟨l, hl, hls⟩ := List.mem_map.mp hx
      have hl1 : l.1 = r.id := by simpa using (List.mem_filter.mp hl).2
      have hxs' : x = s := by simpa using hxs
      obtain ⟨la, lb⟩ := l
      simp only at hl1 hls
      subst hl1
      subst hls
      subst hxs'
      exact (List.mem_filter.mp hl).1
  · intro h
    have hx : s ∈ (db.links.filter (fun l => l.1 == r.id)).map (fun l => l.2) := by
      have : (r.id, s) ∈ db.links.filter (fun l => l.1 == r.id) :=
        List.mem_filter.mpr ⟨h, by simp⟩
      exact List.mem_map_of_mem _ this
    have hne : ((db.links.filter (fun l => l.1 == r.id)).map (fun l => l.2)).isEmpty = false := by
      cases hls : (db.links.filter (fun l => l.1 == r.id)).map (fun l => l.2) with
      | nil => rw [hls] at hx; cases hx
      | cons c cs => rfl
    simp only [linkCells, hne, if_false, Bool.false_eq_true]
    exact List.mem_map_of_mem _ hx

theorem cells_pass_ne_nil (db : DB) (r : RecordRow) (sid : Option Nat) :
    ((linkCells db r).filter (storePass sid) ≠ []) ↔ repStoreOk db sid r = true := by
  cases sid with
  | none =>
    simp only [repStoreOk]
    constructor
    · intro _
      trivial
    · intro _
      have h1 : (linkCells db r).filter (storePass none) = linkCells db r :=
        List.filter_eq_self.mpr (fun c _ => rfl)
      rw [h1]
      exact linkCells_ne_nil db r
  | some s =>
    rw [filter_ne_nil_iff]
    unfold repStoreOk
    constructor
    · rintro ⟨c, hc, hpass⟩
      have hcs : c = some s := by simpa [storePass] using hpass
      subst hcs
      have := (mem_cells_some db r s).mp hc
      simpa using this
    · intro hcont
      have hmem : (r.id, s) ∈ db.links := by simpa using hcont
      exact ⟨some s, (mem_cells_some db r s).mpr hmem, by simp [storePass]⟩

theorem linkCells_len_one (db : DB) (r : RecordRow)
    (h : (db.links.filter (fun l => l.1 == r.id)).length ≤ 1) :
    (linkCells db r).length = 1 := by
  unfold linkCells
  cases hls : (db.links.filter (fun l => l.1 == r.id)).map (fun l => l.2) with
  | nil => simp [hls]
  | cons c cs =>
    have hlen : (db.links.filter (fun l => l.1 == r.id)).length = cs.length + 1 := by
      have := congrArg List.length hls
      simpa using this
    have hcs : cs.length = 0 := by omega
    simp [hls, hcs]

theorem mem_sortIdDesc (l : List RecordRow) (r : RecordRow) :
    r ∈ sortIdDesc l ↔ r ∈ l := by
  unfold sortIdDesc
  exact mem_isort _ _ _

/- ------------------------------------------------------------------
Claim C2.
------------------------------------------------------------------ -/

/-- C2 (amended): when the `recordStores` table exists, the report's
filters are conjunctive — a record id appears among the returned rows
exactly when the record satisfies every given filter (start date, end
date, artist, genre, and store via the link table); this holds at every
such state.  Additionally, provided every matching record has at most
one store link, `stats.count` equals the number of rows.  (With several
links per matching record and no store filter, the record repeats once
per link in `rows` while `count` counts it once, see the
counterexample.) -/
theorem c2_report_conjunctive_count (db : DB) (f : RFilters)
    (hL : db.hasLinks = true) :
    ∃ rep, api_report_records db f = .ok rep ∧
      (∀ rid, (∃ v ∈ rep.rows, v.record_id = rid) ↔
        ∃ r ∈ db.records, r.id = rid ∧
          repStartOk (parsedStart f) r = true ∧
          repEndOk (parsedEnd f) r = true ∧
          repArtistOk (parsedArtist f) r = true ∧
          repGenreOk (parsedGenre f) r = true ∧
          repStoreOk db (parsedStore f) r = true) ∧
      ((∀ r ∈ db.records,
          repRecMatch (parsedStart f) (parsedEnd f) (parsedArtist f)
            (parsedGenre f) r = true →
          (db.links.filter (fun l => l.1 == r.id)).length ≤ 1) →
        rep.stats.count = rep.rows.length) := by
  unfold api_report_records
  rw [hL]
  simp only [Bool.not_true, Bool.and_false, Bool.false_eq_true, if_false, if_true]
  refine ⟨_, rfl, ?_, ?_⟩
  · intro rid
    dsimp only
    constructor
    · rintro ⟨v, hv, hvid⟩
      obtain ⟨r, hr, hvin⟩ := List.mem_flatMap.mp hv
      obtain ⟨c, hc, hveq⟩ := List.mem_map.mp hvin
      have hrm := List.mem_filter.mp hr
      have hrdb : r ∈ db.records := (mem_sortIdDesc _ _).mp hrm.1
      have hpred := hrm.2
      simp only [repRecMatch, Bool.and_eq_true] at hpred
      have hrid : r.id = rid := by
        rw [← hveq] at hvid
        exact hvid
      exact ⟨r, hrdb, hrid, hpred.1.1.1, hpred.1.1.2, hpred.1.2, hpred.2,
        (cells_pass_ne_nil db r (parsedStore f)).mp (List.ne_nil_of_mem hc)⟩
    · rintro ⟨r, hrdb, hrid, h1, h2, h3, h4, h5⟩
      have hpred : repRecMatch (parsedStart f) (parsedEnd f) (parsedArtist f)
          (parsedGenre f) r = true := by
        simp only [repRecMatch, Bool.and_eq_true]
        exact ⟨⟨⟨h1, h2⟩, h3⟩, h4⟩
      have hrm : r ∈ (sortIdDesc db.records).filter
          (repRecMatch (parsedStart f) (parsedEnd f) (parsedArtist f) (parsedGenre f)) :=
        List.mem_filter.mpr ⟨(mem_sortIdDesc _ _).mpr hrdb, hpred⟩
      obtain ⟨c, hc⟩ := List.exists_mem_of_ne_nil _
        ((cells_pass_ne_nil db r (parsedStore f)).mpr h5)
      exact ⟨reportRowView db r c,
        List.mem_flatMap.mpr ⟨r, hrm, List.mem_map_of_mem _ hc⟩, hrid⟩
  · intro hml
    cases hps : parsedStore f with
    | some s =>
      dsimp only
      simp only [Option.isSome_some, if_true, mkStats, List.length_flatMap,
        Function.comp, List.length_map]
      refine congrArg List.sum (List.map_congr_left ?_)
      intro r hr
      simp [Function.comp, List.length_map]
    | none =>
      dsimp only
      simp only [Option.isSome_none, Bool.false_eq_true, if_false, mkStats,
        List.length_flatMap, Function.comp, List.length_map]
      refine (sum_map_ones _ _ ?_).symm
      intro r hrm
      have hrdb : r ∈ db.records := (mem_sortIdDesc _ _).mp (List.mem_filter.mp hrm).1
      have hpred := (List.mem_filter.mp hrm).2
      have hle := hml r hrdb hpred
      have hfe : (linkCells db r).filter (storePass none) = linkCells db r :=
        List.filter_eq_self.mpr (fun c _ => rfl)
      simp only [Function.comp_apply, List.length_map]
      rw [hfe]
      exact linkCells_len_one db r hle

/-- Witness for C2: one artist, one record with one store link; filtering
by `artist_id = 1` and `start_date = 2020-01-01` yields a report whose
count equals its number of rows. -/
theorem c2_report_witness :
    (api_report_records dbW2 filtersW2).isOk = true ∧
    ((api_report_records dbW2 filtersW2).okOr emptyReport).stats.count =
      ((api_report_records dbW2 filtersW2).okOr emptyReport).rows.length := by
  obtain ⟨rep, heq, -, hcnt⟩ :=
    c2_report_conjunctive_count dbW2 filtersW2 (by decide)
  rw [heq]
  exact ⟨rfl, hcnt (by decide)⟩

/-- Counterexample to C2 as stated: with one record linked to two stores
and no filters, the report returns two rows (one per link) while
`stats.count` is 1. -/
theorem c2_count_mismatch_example :
    (api_report_records dbC2 emptyFilters).isOk = true ∧
    ((api_report_records dbC2 emptyFilters).okOr emptyReport).rows.length = 2 ∧
    ((api_report_records dbC2 emptyFilters).okOr emptyReport).stats.count = 1 := by
  decide

/- ------------------------------------------------------------------
Claim C8: helper lemmas about digits, `splitDash` and the regex pieces.
------------------------------------------------------------------ -/

theorem dval_le {c : Char} (h : isDigitChar c = true) : dval c ≤ 9 := by
  unfold isDigitChar at h
  simp at h
  unfold dval
  omega

theorem digit_ne_dash {c : Char} (h : isDigitChar c = true) : (c == '-') = false := by
  unfold isDigitChar at h
  simp at h ⊢
  intro hc
  subst hc
  have : ('-').toNat = 45 := rfl
  omega

theorem splitDash_ne_nil : ∀ cs : List Char, splitDash cs ≠ [] := by
  intro cs
  induction cs with
  | nil => simp [splitDash]
  | cons c rest ih =>
    unfold splitDash
    by_cases hc : (c == '-') = true
    · simp [hc]
    · simp only [hc, Bool.false_eq_true, if_false]
      cases hr : splitDash rest with
      | nil => simp
      | cons g gs => simp

theorem splitDash_cons_dash (rest : List Char) :
    splitDash ('-' :: rest) = [] :: splitDash rest := by
  conv_lhs => rw [splitDash]
  simp

theorem splitDash_cons_eq {c : Char} (hc : (c == '-') = false) {rest : List Char}
    {g : List Char} {gs : List (List Char)} (hr : splitDash rest = g :: gs) :
    splitDash (c :: rest) = (c :: g) :: gs := by
  conv_lhs => rw [splitDash]
  rw [if_neg (by simp [hc]), hr]

theorem splitDash_append_digits (ds : List Char) (rest : List Char)
    (hds : ∀ c ∈ ds, isDigitChar c = true) :
    splitDash (ds ++ '-' :: rest) = ds :: splitDash rest := by
  induction ds with
  | nil =>
    show splitDash ('-' :: rest) = [] :: splitDash rest
    exact splitDash_cons_dash rest
  | cons c cs ih =>
    have hc := hds c (by simp)
    have ih' := ih (fun x hx => hds x (by simp [hx]))
    show splitDash (c :: (cs ++ '-' :: rest)) = (c :: cs) :: splitDash rest
    cases hr : splitDash rest with
    | nil => exact absurd hr (splitDash_ne_nil rest)
    | cons g gs =>
      rw [hr] at ih'
      exact splitDash_cons_eq (digit_ne_dash hc) ih'

theorem splitDash_digits_only (ds : List Char)
    (hds : ∀ c ∈ ds, isDigitChar c = true) : splitDash ds = [ds] := by
  induction ds with
  | nil => rfl
  | cons c cs ih =>
    have hc := hds c (by simp)
    have ih' := ih (fun x hx => hds x (by simp [hx]))
    rw [splitDash_cons_eq (digit_ne_dash hc) ih']

theorem joinDash_splitDash : ∀ cs : List Char, joinDash (splitDash cs) = cs := by
  intro cs
  induction cs with
  | nil => rfl
  | cons c rest ih =>
    by_cases hc : (c == '-') = true
    · have hc' : c = '-' := by simpa using hc
      subst hc'
      rw [splitDash_cons_dash]
      cases hr : splitDash rest with
      | nil => exact absurd hr (splitDash_ne_nil rest)
      | cons g gs =>
        show joinDash ([] :: g :: gs) = '-' :: rest
        rw [hr] at ih
        rw [show joinDash ([] :: g :: gs) = [] ++ '-' :: joinDash (g :: gs) from rfl]
        rw [ih]
        rfl
    · cases hr : splitDash rest with
      | nil => exact absurd hr (splitDash_ne_nil rest)
      | cons g gs =>
        rw [splitDash_cons_eq (Bool.eq_false_iff.mpr (by simpa using hc)) hr]
        rw [hr] at ih
        cases gs with
        | nil =>
          show joinDash [c :: g] = c :: rest
          have hg : g = rest := by simpa [joinDash] using ih
          simp [joinDash, hg]
        | cons g2 gs2 =>
          show joinDash ((c :: g) :: g2 :: gs2) = c :: rest
          rw [show joinDash ((c :: g) :: g2 :: gs2) =
            (c :: g) ++ '-' :: joinDash (g2 :: gs2) from rfl]
          rw [show joinDash (g :: g2 :: gs2) = g ++ '-' :: joinDash (g2 :: gs2) from rfl] at ih
          rw [List.cons_append, ih]

theorem segVal_single (a : Char) : segVal [a] = dval a := by
  unfold segVal
  simp

theorem segVal_pair (a b : Char) : segVal [a, b] = 10 * dval a + dval b := by
  unfold segVal
  simp [List.foldl]

theorem segVal_quad (a b c d : Char) :
    segVal [a, b, c, d] = 1000 * dval a + 100 * dval b + 10 * dval c + dval d := by
  unfold segVal
  simp [List.foldl]
  ring

theorem string_eq_empty_iff (s : String) : s = "" ↔ s.data = [] := by
  constructor
  · intro h
    rw [h]
  · intro h
    obtain ⟨data⟩ := s
    have hd : data = [] := h
    subst hd
    rfl

theorem monthVal1_spec {a : Char} {m : Nat} (h : monthVal1 a = some m) :
    isDigitChar a = true ∧ m = dval a ∧ 1 ≤ m ∧ m ≤ 9 := by
  unfold monthVal1 at h
  by_cases hc : (isDigitChar a && 1 ≤ dval a : Bool) = true
  · rw [if_pos hc] at h
    simp only [Bool.and_eq_true, decide_eq_true_eq] at hc
    have := dval_le hc.1
    have hm := Option.some.inj h
    exact ⟨hc.1, hm.symm, by omega, by omega⟩
  · rw [if_neg hc] at h
    cases h

theorem monthVal1_build {a : Char} (ha : isDigitChar a = true) (h1 : 1 ≤ dval a) :
    monthVal1 a = some (dval a) := by
  unfold monthVal1
  rw [if_pos (by simp only [Bool.and_eq_true, decide_eq_true_eq]; exact ⟨ha, h1⟩)]

theorem monthVal2_spec {a b : Char} {m : Nat} (h : monthVal2 a b = some m) :
    isDigitChar a = true ∧ isDigitChar b = true ∧ m = 10 * dval a + dval b ∧
    1 ≤ m ∧ m ≤ 12 := by
  unfold monthVal2 at h
  by_cases hd : (isDigitChar a && isDigitChar b) = true
  · rw [if_pos hd] at h
    simp only [Bool.and_eq_true] at hd
    have ha9 := dval_le hd.1
    have hb9 := dval_le hd.2
    by_cases h1 : (dval a == 1 && dval b ≤ 2 : Bool) = true
    · rw [if_pos h1] at h
      simp only [Bool.and_eq_true, beq_iff_eq, decide_eq_true_eq] at h1
      have hm := Option.some.inj h
      exact ⟨hd.1, hd.2, by omega, by omega, by omega⟩
    · rw [if_neg h1] at h
      by_cases h2 : (dval a == 0 && 1 ≤ dval b : Bool) = true
      · rw [if_pos h2] at h
        simp only [Bool.and_eq_true, beq_iff_eq, decide_eq_true_eq] at h2
        have hm := Option.some.inj h
        exact ⟨hd.1, hd.2, by omega, by omega, by omega⟩
      · rw [if_neg h2] at h
        cases h
  · rw [if_neg hd] at h
    cases h

theorem monthVal2_build {a b : Char} (ha : isDigitChar a = true)
    (hb : isDigitChar b = true) (h1 : 1 ≤ 10 * dval a + dval b)
    (h2 : 10 * dval a + dval b ≤ 12) :
    monthVal2 a b = some (10 * dval a + dval b) := by
  have ha9 := dval_le ha
  have hb9 := dval_le hb
  unfold monthVal2
  rw [if_pos (by simp only [Bool.and_eq_true]; exact ⟨ha, hb⟩)]
  by_cases hx : dval a = 1
  · rw [if_pos (by simp only [Bool.and_eq_true, beq_iff_eq, decide_eq_true_eq]; exact ⟨hx, by omega⟩)]
    exact congrArg some (by omega)
  · have hx0 : dval a = 0 := by omega
    rw [if_neg (by simp only [Bool.and_eq_true, beq_iff_eq, decide_eq_true_eq]; exact fun hcon => hx hcon.1),
      if_pos (by simp only [Bool.and_eq_true, beq_iff_eq, decide_eq_true_eq]; exact ⟨hx0, by omega⟩)]
    exact congrArg some (by omega)

theorem dayVal1_spec {a : Char} {d : Nat} (h : dayVal1 a = some d) :
    isDigitChar a = true ∧ d = dval a ∧ 1 ≤ d ∧ d ≤ 9 := by
  unfold dayVal1 at h
  by_cases hc : (isDigitChar a && 1 ≤ dval a : Bool) = true
  · rw [if_pos hc] at h
    simp only [Bool.and_eq_true, decide_eq_true_eq] at hc
    have := dval_le hc.1
    have hm := Option.some.inj h
    exact ⟨hc.1, hm.symm, by omega, by omega⟩
  · rw [if_neg hc] at h
    cases h

theorem dayVal1_build {a : Char} (ha : isDigitChar a = true) (h1 : 1 ≤ dval a) :
    dayVal1 a = some (dval a) := by
  unfold dayVal1
  rw [if_pos (by simp only [Bool.and_eq_true, decide_eq_true_eq]; exact ⟨ha, h1⟩)]

theorem dayVal2_spec {a b : Char} {d : Nat} (h : dayVal2 a b = some d) :
    isDigitChar a = true ∧ isDigitChar b = true ∧ d = 10 * dval a + dval b ∧
    1 ≤ d ∧ d ≤ 31 := by
  unfold dayVal2 at h
  by_cases hd : (isDigitChar a && isDigitChar b) = true
  · rw [if_pos hd] at h
    simp only [Bool.and_eq_true] at hd
    have ha9 := dval_le hd.1
    have hb9 := dval_le hd.2
    by_cases h1 : (dval a == 3 && dval b ≤ 1 : Bool) = true
    · rw [if_pos h1] at h
      simp only [Bool.and_eq_true, beq_iff_eq, decide_eq_true_eq] at h1
      have hm := Option.some.inj h
      exact ⟨hd.1, hd.2, by omega, by omega, by omega⟩
    · rw [if_neg h1] at h
      by_cases h2 : (dval a == 1 || dval a == 2 : Bool) = true
      · rw [if_pos h2] at h
        simp only [Bool.or_eq_true, beq_iff_eq] at h2
        have hm := Option.some.inj h
        exact ⟨hd.1, hd.2, by omega, by omega, by omega⟩
      · rw [if_neg h2] at h
        by_cases h3 : (dval a == 0 && 1 ≤ dval b : Bool) = true
        · rw [if_pos h3] at h
          simp only [Bool.and_eq_true, beq_iff_eq, decide_eq_true_eq] at h3
          have hm := Option.some.inj h
          exact ⟨hd.1, hd.2, by omega, by omega, by omega⟩
        · rw [if_neg h3] at h
          cases h
  · rw [if_neg hd] at h
    cases h

theorem dayVal2_build {a b : Char} (ha : isDigitChar a = true)
    (hb : isDigitChar b = true) (h1 : 1 ≤ 10 * dval a + dval b)
    (h2 : 10 * dval a + dval b ≤ 31) :
    dayVal2 a b = some (10 * dval a + dval b) := by
  have ha9 := dval_le ha
  have hb9 := dval_le hb
  unfold dayVal2
  rw [if_pos (by simp only [Bool.and_eq_true]; exact ⟨ha, hb⟩)]
  by_cases hx3 : dval a = 3
  · rw [if_pos (by simp only [Bool.and_eq_true, beq_iff_eq, decide_eq_true_eq]; exact ⟨hx3, by omega⟩)]
    exact congrArg some (by omega)
  · by_cases hx12 : dval a = 1 ∨ dval a = 2
    · rw [if_neg (by simp only [Bool.and_eq_true, beq_iff_eq, decide_eq_true_eq]; exact fun hcon => hx3 hcon.1),
        if_pos (by simp only [Bool.or_eq_true, beq_iff_eq]; exact hx12)]
    · have hx0 : dval a = 0 := by omega
      rw [if_neg (by simp only [Bool.and_eq_true, beq_iff_eq, decide_eq_true_eq]; exact fun hcon => hx3 hcon.1),
        if_neg (by simp only [Bool.or_eq_true, beq_iff_eq]; exact hx12),
        if_pos (by simp only [Bool.and_eq_true, beq_iff_eq, decide_eq_true_eq]; exact ⟨hx0, by omega⟩)]
      exact congrArg some (by omega)

theorem yearVal4_spec {a b c d : Char} {y : Nat} (h : yearVal4 a b c d = some y) :
    isDigitChar a = true ∧ isDigitChar b = true ∧ isDigitChar c = true ∧
    isDigitChar d = true ∧ y = 1000 * dval a + 100 * dval b + 10 * dval c + dval d := by
  unfold yearVal4 at h
  by_cases hd : (isDigitChar a && isDigitChar b && isDigitChar c && isDigitChar d) = true
  · rw [if_pos hd] at h
    simp only [Bool.and_eq_true] at hd
    have hy := Option.some.inj h
    exact ⟨hd.1.1.1, hd.1.1.2, hd.1.2, hd.2, hy.symm⟩
  · rw [if_neg hd] at h
    cases h

theorem yearVal4_build {a b c d : Char} (ha : isDigitChar a = true)
    (hb : isDigitChar b = true) (hc : isDigitChar c = true)
    (hd : isDigitChar d = true) :
    yearVal4 a b c d = some (1000 * dval a + 100 * dval b + 10 * dval c + dval d) := by
  unfold yearVal4
  rw [if_pos (by simp only [Bool.and_eq_true]; exact ⟨⟨⟨ha, hb⟩, hc⟩, hd⟩)]

theorem segDigits_spec {g : List Char} (h : segDigits g = true) :
    g ≠ [] ∧ ∀ c ∈ g, isDigitChar c = true := by
  unfold segDigits at h
  rw [Bool.and_eq_true] at h
  refine ⟨?_, ?_⟩
  · intro hnil
    rw [hnil] at h
    simp at h
  · intro c hc
    have h2 := h.2
    rw [List.all_eq_true] at h2
    exact h2 c hc

theorem segDigits_build {g : List Char} (hne : g ≠ [])
    (hd : ∀ c ∈ g, isDigitChar c = true) : segDigits g = true := by
  unfold segDigits
  rw [Bool.and_eq_true]
  constructor
  · cases g with
    | nil => exact absurd rfl hne
    | cons c cs => rfl
  · rw [List.all_eq_true]
    exact hd

theorem parse_some_elim {s : String} (h : parse_date_yyyy_mm_dd (some s) = some s) :
    ∃ y m d, strptimeTriple s.data = some (y, m, d) ∧ 1 ≤ y ∧
      d ≤ daysInMonth y m ∧ ¬s = "" := by
  unfold parse_date_yyyy_mm_dd at h
  dsimp only at h
  by_cases he : s = ""
  · rw [if_pos he] at h
    cases h
  · rw [if_neg he] at h
    cases htr : strptimeTriple s.data with
    | none =>
      rw [htr] at h
      cases h
    | some t =>
      obtain ⟨y, m, d⟩ := t
      rw [htr] at h
      dsimp only at h
      by_cases hg : 1 ≤ y ∧ d ≤ daysInMonth y m
      · exact ⟨y, m, d, rfl, hg.1, hg.2, he⟩
      · rw [if_neg hg] at h
        cases h

theorem parse_some_intro {s : String} {y m d : Nat}
    (htr : strptimeTriple s.data = some (y, m, d)) (hy : 1 ≤ y)
    (hd : d ≤ daysInMonth y m) (hne : ¬s = "") :
    parse_date_yyyy_mm_dd (some s) = some s := by
  unfold parse_date_yyyy_mm_dd
  dsimp only
  rw [if_neg hne, htr]
  dsimp only
  rw [if_pos ⟨hy, hd⟩]


theorem strptime_shape22 {y1 y2 y3 y4 m1 m2 d1 d2 : Char} {y m d : Nat}
    (h : ((yearVal4 y1 y2 y3 y4).bind fun yy =>
      (monthVal2 m1 m2).bind fun mm => (dayVal2 d1 d2).map fun dd =>
        (yy, mm, dd)) = some (y, m, d)) :
    ∃ ys ms ds, splitDash [y1, y2, y3, y4, '-', m1, m2, '-', d1, d2] = [ys, ms, ds] ∧
      (∀ c ∈ ys, isDigitChar c = true) ∧ ys.length = 4 ∧ segVal ys = y ∧
      (∀ c ∈ ms, isDigitChar c = true) ∧ 1 ≤ ms.length ∧ ms.length ≤ 2 ∧
        segVal ms = m ∧ 1 ≤ m ∧ m ≤ 12 ∧
      (∀ c ∈ ds, isDigitChar c = true) ∧ 1 ≤ ds.length ∧ ds.length ≤ 2 ∧
        segVal ds = d ∧ 1 ≤ d ∧ d ≤ 31 := by
  simp only [Option.bind_eq_some, Option.map_eq_some'] at h
  obtain ⟨yv, hyv, mv, hmv, dv, hdv, heq⟩ := h
  simp only [Prod.mk.injEq] at heq
  obtain ⟨rfl, rfl, rfl⟩ := heq
  obtain ⟨hc1, hc2, hc3, hc4, hyval⟩ := yearVal4_spec hyv
  obtain ⟨hm1, hm2, hmval, hmlo, hmhi⟩ := monthVal2_spec hmv
  obtain ⟨hd1, hd2, hdval, hdlo, hdhi⟩ := dayVal2_spec hdv
  refine ⟨[y1, y2, y3, y4], [m1, m2], [d1, d2], ?_, ?_, rfl, ?_, ?_, by simp,
    by simp, ?_, hmlo, hmhi, ?_, by simp, by simp, ?_, hdlo, hdhi⟩
  · show splitDash ([y1, y2, y3, y4] ++ '-' :: ([m1, m2] ++ '-' :: [d1, d2])) =
      [[y1, y2, y3, y4], [m1, m2], [d1, d2]]
    rw [splitDash_append_digits _ _
        (by intro c hc; simp at hc; rcases hc with rfl | rfl | rfl | rfl <;> assumption),
      splitDash_append_digits _ _
        (by intro c hc; simp at hc; rcases hc with rfl | rfl <;> assumption),
      splitDash_digits_only _
        (by intro c hc; simp at hc; rcases hc with rfl | rfl <;> assumption)]
  · intro c hc
    simp at hc
    rcases hc with rfl | rfl | rfl | rfl <;> assumption
  · rw [segVal_quad]
    omega
  · intro c hc
    simp at hc
    rcases hc with rfl | rfl <;> assumption
  · rw [segVal_pair]
    omega
  · intro c hc
    simp at hc
    rcases hc with rfl | rfl <;> assumption
  · rw [segVal_pair]
    omega

theorem strptime_shape12 {y1 y2 y3 y4 m1 d1 d2 : Char} {y m d : Nat}
    (h : ((yearVal4 y1 y2 y3 y4).bind fun yy =>
      (monthVal1 m1).bind fun mm => (dayVal2 d1 d2).map fun dd =>
        (yy, mm, dd)) = some (y, m, d)) :
    ∃ ys ms ds, splitDash [y1, y2, y3, y4, '-', m1, '-', d1, d2] = [ys, ms, ds] ∧
      (∀ c ∈ ys, isDigitChar c = true) ∧ ys.length = 4 ∧ segVal ys = y ∧
      (∀ c ∈ ms, isDigitChar c = true) ∧ 1 ≤ ms.length ∧ ms.length ≤ 2 ∧
        segVal ms = m ∧ 1 ≤ m ∧ m ≤ 12 ∧
      (∀ c ∈ ds, isDigitChar c = true) ∧ 1 ≤ ds.length ∧ ds.length ≤ 2 ∧
        segVal ds = d ∧ 1 ≤ d ∧ d ≤ 31 := by
  simp only [Option.bind_eq_some, Option.map_eq_some'] at h
  obtain ⟨yv, hyv, mv, hmv, dv, hdv, heq⟩ := h
  simp only [Prod.mk.injEq] at heq
  obtain ⟨rfl, rfl, rfl⟩ := heq
  obtain ⟨hc1, hc2, hc3, hc4, hyval⟩ := yearVal4_spec hyv
  obtain ⟨hm1, hmval, hmlo, hmhi⟩ := monthVal1_spec hmv
  obtain ⟨hd1, hd2, hdval, hdlo, hdhi⟩ := dayVal2_spec hdv
  refine ⟨[y1, y2, y3, y4], [m1], [d1, d2], ?_, ?_, rfl, ?_, ?_, by simp,
    by simp, ?_, hmlo, by omega, ?_, by simp, by simp, ?_, hdlo, hdhi⟩
  · show splitDash ([y1, y2, y3, y4] ++ '-' :: ([m1] ++ '-' :: [d1, d2])) =
      [[y1, y2, y3, y4], [m1], [d1, d2]]
    rw [splitDash_append_digits _ _
        (by intro c hc; simp at hc; rcases hc with rfl | rfl | rfl | rfl <;> assumption),
      splitDash_append_digits _ _
        (by intro c hc; simp at hc; rcases hc with rfl <;> assumption),
      splitDash_digits_only _
        (by intro c hc; simp at hc; rcases hc with rfl | rfl <;> assumption)]
  · intro c hc
    simp at hc
    rcases hc with rfl | rfl | rfl | rfl <;> assumption
  · rw [segVal_quad]
    omega
  · intro c hc
    simp at hc
    rcases hc with rfl <;> assumption
  · rw [segVal_single]
    omega
  · intro c hc
    simp at hc
    rcases hc with rfl | rfl <;> assumption
  · rw [segVal_pair]
    omega

theorem strptime_shape21 {y1 y2 y3 y4 m1 m2 d1 : Char} {y m d : Nat}
    (h : ((yearVal4 y1 y2 y3 y4).bind fun yy =>
      (monthVal2 m1 m2).bind fun mm => (dayVal1 d1).map fun dd =>
        (yy, mm, dd)) = some (y, m, d)) :
    ∃ ys ms ds, splitDash [y1, y2, y3, y4, '-', m1, m2, '-', d1] = [ys, ms, ds] ∧
      (∀ c ∈ ys, isDigitChar c = true) ∧ ys.length = 4 ∧ segVal ys = y ∧
      (∀ c ∈ ms, isDigitChar c = true) ∧ 1 ≤ ms.length ∧ ms.length ≤ 2 ∧
        segVal ms = m ∧ 1 ≤ m ∧ m ≤ 12 ∧
      (∀ c ∈ ds, isDigitChar c = true) ∧ 1 ≤ ds.length ∧ ds.length ≤ 2 ∧
        segVal ds = d ∧ 1 ≤ d ∧ d ≤ 31 := by
  simp only [Option.bind_eq_some, Option.map_eq_some'] at h
  obtain ⟨yv, hyv, mv, hmv, dv, hdv, heq⟩ := h
  simp only [Prod.mk.injEq] at heq
  obtain ⟨rfl, rfl, rfl⟩ := heq
  obtain ⟨hc1, hc2, hc3, hc4, hyval⟩ := yearVal4_spec hyv
  obtain ⟨hm1, hm2, hmval, hmlo, hmhi⟩ := monthVal2_spec hmv
  obtain ⟨hd1, hdval, hdlo, hdhi⟩ := dayVal1_spec hdv
  refine ⟨[y1, y2, y3, y4], [m1, m2], [d1], ?_, ?_, rfl, ?_, ?_, by simp,
    by simp, ?_, hmlo, hmhi, ?_, by simp, by simp, ?_, hdlo, by omega⟩
  · show splitDash ([y1, y2, y3, y4] ++ '-' :: ([m1, m2] ++ '-' :: [d1])) =
      [[y1, y2, y3, y4], [m1, m2], [d1]]
    rw [splitDash_append_digits _ _
        (by intro c hc; simp at hc; rcases hc with rfl | rfl | rfl | rfl <;> assumption),
      splitDash_append_digits _ _
        (by intro c hc; simp at hc; rcases hc with rfl | rfl <;> assumption),
      splitDash_digits_only _
        (by intro c hc; simp at hc; rcases hc with rfl <;> assumption)]
  · intro c hc
    simp at hc
    rcases hc with rfl | rfl | rfl | rfl <;> assumption
  · rw [segVal_quad]
    omega
  · intro c hc
    simp at hc
    rcases hc with rfl | rfl <;> assumption
  · rw [segVal_pair]
    omega
  · intro c hc
    simp at hc
    rcases hc with rfl <;> assumption
  · rw [segVal_single]
    omega

theorem strptime_shape11 {y1 y2 y3 y4 m1 d1 : Char} {y m d : Nat}
    (h : ((yearVal4 y1 y2 y3 y4).bind fun yy =>
      (monthVal1 m1).bind fun mm => (dayVal1 d1).map fun dd =>
        (yy, mm, dd)) = some (y, m, d)) :
    ∃ ys ms ds, splitDash [y1, y2, y3, y4, '-', m1, '-', d1] = [ys, ms, ds] ∧
      (∀ c ∈ ys, isDigitChar c = true) ∧ ys.length = 4 ∧ segVal ys = y ∧
      (∀ c ∈ ms, isDigitChar c = true) ∧ 1 ≤ ms.length ∧ ms.length ≤ 2 ∧
        segVal ms = m ∧ 1 ≤ m ∧ m ≤ 12 ∧
      (∀ c ∈ ds, isDigitChar c = true) ∧ 1 ≤ ds.length ∧ ds.length ≤ 2 ∧
        segVal ds = d ∧ 1 ≤ d ∧ d ≤ 31 := by
  simp only [Option.bind_eq_some, Option.map_eq_some'] at h
  obtain ⟨yv, hyv, mv, hmv, dv, hdv, heq⟩ := h
  simp only [Prod.mk.injEq] at heq
  obtain ⟨rfl, rfl, rfl⟩ := heq
  obtain ⟨hc1, hc2, hc3, hc4, hyval⟩ := yearVal4_spec hyv
  obtain ⟨hm1, hmval, hmlo, hmhi⟩ := monthVal1_spec hmv
  obtain ⟨hd1, hdval, hdlo, hdhi⟩ := dayVal1_spec hdv
  refine ⟨[y1, y2, y3, y4], [m1], [d1], ?_, ?_, rfl, ?_, ?_, by simp,
    by simp, ?_, hmlo, by omega, ?_, by simp, by simp, ?_, hdlo, by omega⟩
  · show splitDash ([y1, y2, y3, y4] ++ '-' :: ([m1] ++ '-' :: [d1])) =
      [[y1, y2, y3, y4], [m1], [d1]]
    rw [splitDash_append_digits _ _
        (by intro c hc; simp at hc; rcases hc with rfl | rfl | rfl | rfl <;> assumption),
      splitDash_append_digits _ _
        (by intro c hc; simp at hc; rcases hc with rfl <;> assumption),
      splitDash_digits_only _
        (by intro c hc; simp at hc; rcases hc with rfl <;> assumption)]
  · intro c hc
    simp at hc
    rcases hc with rfl | rfl | rfl | rfl <;> assumption
  · rw [segVal_quad]
    omega
  · intro c hc
    simp at hc
    rcases hc with rfl <;> assumption
  · rw [segVal_single]
    omega
  · intro c hc
    simp at hc
    rcases hc with rfl <;> assumption
  · rw [segVal_single]
    omega

theorem strptimeTriple_spec {cs : List Char} {y m d : Nat}
    (h : strptimeTriple cs = some (y, m, d)) :
    ∃ ys ms ds, splitDash cs = [ys, ms, ds] ∧
      (∀ c ∈ ys, isDigitChar c = true) ∧ ys.length = 4 ∧ segVal ys = y ∧
      (∀ c ∈ ms, isDigitChar c = true) ∧ 1 ≤ ms.length ∧ ms.length ≤ 2 ∧
        segVal ms = m ∧ 1 ≤ m ∧ m ≤ 12 ∧
      (∀ c ∈ ds, isDigitChar c = true) ∧ 1 ≤ ds.length ∧ ds.length ≤ 2 ∧
        segVal ds = d ∧ 1 ≤ d ∧ d ≤ 31 := by
  unfold strptimeTriple at h
  split at h
  · exact strptime_shape22 h
  · exact strptime_shape12 h
  · exact strptime_shape21 h
  · exact strptime_shape11 h
  · cases h

theorem daysInMonth_le (y m : Nat) : daysInMonth y m ≤ 31 := by
  unfold daysInMonth
  split
  · split <;> omega
  · split <;> omega

theorem strptimeTriple_build {cs ys ms ds : List Char}
    (hsplit : splitDash cs = [ys, ms, ds])
    (hys : ∀ c ∈ ys, isDigitChar c = true) (hylen : ys.length = 4)
    (hms : ∀ c ∈ ms, isDigitChar c = true) (hmlo : 1 ≤ ms.length)
    (hmhi : ms.length ≤ 2) (hm1 : 1 ≤ segVal ms) (hm12 : segVal ms ≤ 12)
    (hds : ∀ c ∈ ds, isDigitChar c = true) (hdlo : 1 ≤ ds.length)
    (hdhi : ds.length ≤ 2) (hd1 : 1 ≤ segVal ds) (hd31 : segVal ds ≤ 31) :
    strptimeTriple cs = some (segVal ys, segVal ms, segVal ds) := by
  have hcs : joinDash [ys, ms, ds] = cs := by
    rw [← hsplit, joinDash_splitDash]
  subst hcs
  rcases ys with _ | ⟨a, _ | ⟨b, _ | ⟨c, _ | ⟨d, _ | ⟨e0, ys'⟩⟩⟩⟩⟩ <;>
    simp only [List.length] at hylen <;> try omega
  have ha := hys a (by simp)
  have hb := hys b (by simp)
  have hc := hys c (by simp)
  have hd := hys d (by simp)
  rcases ms with _ | ⟨m1, _ | ⟨m2, _ | ⟨m3, ms'⟩⟩⟩ <;>
    simp only [List.length] at hmlo hmhi <;> try omega
  · have hm1d := hms m1 (by simp)
    rw [segVal_single] at hm1 hm12
    rcases ds with _ | ⟨e, _ | ⟨f, _ | ⟨e3, ds'⟩⟩⟩ <;>
      simp only [List.length] at hdlo hdhi <;> try omega
    · have he := hds e (by simp)
      rw [segVal_single] at hd1 hd31
      show strptimeTriple [a, b, c, d, '-', m1, '-', e] = _
      simp only [strptimeTriple]
      rw [yearVal4_build ha hb hc hd, Option.some_bind,
        monthVal1_build hm1d hm1, Option.some_bind,
        dayVal1_build he hd1, Option.map_some']
      rw [segVal_quad, segVal_single, segVal_single]
    · have he := hds e (by simp)
      have hf := hds f (by simp)
      rw [segVal_pair] at hd1 hd31
      show strptimeTriple [a, b, c, d, '-', m1, '-', e, f] = _
      simp only [strptimeTriple]
      rw [yearVal4_build ha hb hc hd, Option.some_bind,
        monthVal1_build hm1d hm1, Option.some_bind,
        dayVal2_build he hf hd1 hd31, Option.map_some']
      rw [segVal_quad, segVal_single, segVal_pair]
  · have hm1d := hms m1 (by simp)
    have hm2d := hms m2 (by simp)
    rw [segVal_pair] at hm1 hm12
    rcases ds with _ | ⟨e, _ | ⟨f, _ | ⟨e3, ds'⟩⟩⟩ <;>
      simp only [List.length] at hdlo hdhi <;> try omega
    · have he := hds e (by simp)
      rw [segVal_single] at hd1 hd31
      have hne : ¬m2 = '-' := by
        intro hcon
        have := digit_ne_dash hm2d
        rw [hcon] at this
        simp at this
      show strptimeTriple [a, b, c, d, '-', m1, m2, '-', e] = _
      unfold strptimeTriple
      split
      next hpat => exact absurd hpat (by simp)
      next hpat => exact absurd hpat (by simp [hne])
      next hpat =>
        simp only [List.cons.injEq, and_true] at hpat
        obtain ⟨rfl, rfl, rfl, rfl, -, rfl, rfl, -, rfl⟩ := hpat
        rw [yearVal4_build ha hb hc hd, Option.some_bind,
          monthVal2_build hm1d hm2d hm1 hm12, Option.some_bind,
          dayVal1_build he hd1, Option.map_some']
        rw [segVal_quad, segVal_pair, segVal_single]
      next hpat => exact absurd hpat (by simp)
      next hp1 hp2 hp3 hp4 => exact absurd rfl (hp3 a b c d m1 m2 e)
    · have he := hds e (by simp)
      have hf := hds f (by simp)
      rw [segVal_pair] at hd1 hd31
      show strptimeTriple [a, b, c, d, '-', m1, m2, '-', e, f] = _
      simp only [strptimeTriple]
      rw [yearVal4_build ha hb hc hd, Option.some_bind,
        monthVal2_build hm1d hm2d hm1 hm12, Option.some_bind,
        dayVal2_build he hf hd1 hd31, Option.map_some']
      rw [segVal_quad, segVal_pair, segVal_pair]

/-- Claim C8 (corrected): the facade's date parser either returns its
input unchanged or treats it as absent (`none`), and it returns the
input exactly when the string consists of three hyphen-separated digit
segments: a four-digit year at least 0001, a one-or-two-digit month in
1..12, and a one-or-two-digit day valid for that month and year -
zero-padding of month and day is NOT required, contrary to the
"YYYY-MM-DD exactly" wording (see the counterexample). -/
theorem c8_date_parser_characterization (s : String) :
    (parse_date_yyyy_mm_dd (some s) = some s ↔ amendedDateOk s = true) ∧
    (parse_date_yyyy_mm_dd (some s) = some s ∨
      parse_date_yyyy_mm_dd (some s) = none) := by
  constructor
  · constructor
    · intro h
      obtain ⟨y, m, d, htr, hy, hdm, hne⟩ := parse_some_elim h
      obtain ⟨ys, ms, ds, hsplit, hysd, hylen, hyval, hmsd, hmlo, hmhi, hmval,
        hm1, hm12, hdsd, hdlo, hdhi, hdval, hd1, hd31⟩ := strptimeTriple_spec htr
      unfold amendedDateOk
      rw [hsplit]
      simp only [Bool.and_eq_true, beq_iff_eq, decide_eq_true_eq]
      have hyne : ys ≠ [] := by
        intro hcon
        rw [hcon] at hylen
        simp at hylen
      have hmne : ms ≠ [] := by
        intro hcon
        rw [hcon] at hmlo
        simp at hmlo
      have hdne : ds ≠ [] := by
        intro hcon
        rw [hcon] at hdlo
        simp at hdlo
      exact ⟨⟨⟨⟨⟨⟨⟨⟨⟨⟨segDigits_build hyne hysd, hylen⟩, by omega⟩,
        segDigits_build hmne hmsd⟩, hmhi⟩, by omega⟩, by omega⟩,
        segDigits_build hdne hdsd⟩, hdhi⟩, by omega⟩, by rw [hyval, hmval, hdval]; exact hdm⟩
    · intro h
      unfold amendedDateOk at h
      rcases hsp : splitDash s.data with _ | ⟨ys, _ | ⟨ms, _ | ⟨ds, _ | ⟨g4, gs⟩⟩⟩⟩ <;>
        rw [hsp] at h
      · exact absurd h (by simp)
      · exact absurd h (by simp)
      · exact absurd h (by simp)
      · simp only [Bool.and_eq_true, beq_iff_eq, decide_eq_true_eq] at h
        obtain ⟨⟨⟨⟨⟨⟨⟨⟨⟨⟨hysd, hylen⟩, hy1⟩, hmsd⟩, hmhi⟩, hm1⟩, hm12⟩,
          hdsd⟩, hdhi⟩, hd1⟩, hdcal⟩ := h
        obtain ⟨hyne, hysall⟩ := segDigits_spec hysd
        obtain ⟨hmne, hmsall⟩ := segDigits_spec hmsd
        obtain ⟨hdne, hdsall⟩ := segDigits_spec hdsd
        have hmlo : 1 ≤ ms.length := by
          cases ms with
          | nil => exact absurd rfl hmne
          | cons x xs => simp
        have hdlo : 1 ≤ ds.length := by
          cases ds with
          | nil => exact absurd rfl hdne
          | cons x xs => simp
        have hd31 : segVal ds ≤ 31 := le_trans hdcal (daysInMonth_le _ _)
        have htr := strptimeTriple_build hsp hysall hylen hmsall hmlo hmhi hm1
          hm12 hdsall hdlo hdhi hd1 hd31
        have hne : ¬s = "" := by
          intro hcon
          have hdata : s.data = [] := (string_eq_empty_iff s).mp hcon
          rw [hdata] at hsp
          simp [splitDash] at hsp
        exact parse_some_intro htr hy1 hdcal hne
      · exact absurd h (by simp)
  · unfold parse_date_yyyy_mm_dd
    dsimp only
    by_cases he : s = ""
    · rw [if_pos he]
      exact Or.inr rfl
    · rw [if_neg he]
      cases htr : strptimeTriple s.data with
      | none => exact Or.inr rfl
      | some t =>
        obtain ⟨y, m, d⟩ := t
        dsimp only
        by_cases hg : 1 ≤ y ∧ d ≤ daysInMonth y m
        · rw [if_pos hg]
          exact Or.inl rfl
        · rw [if_neg hg]
          exact Or.inr rfl

/-- Claim C8 counterexample to the literal wording: "2020-1-1" is not in
the zero-padded `YYYY-MM-DD` shape the specification names, yet the
parser returns it unchanged; conversely "2020-02-30" is in that shape
yet the parser treats it as absent (no such calendar day). -/
theorem c8_unpadded_date_example :
    parse_date_yyyy_mm_dd (some "2020-1-1") = some "2020-1-1" ∧
    specPaddedYYYYMMDD "2020-1-1" = false ∧
    parse_date_yyyy_mm_dd (some "2020-02-30") = none ∧
    specPaddedYYYYMMDD "2020-02-30" = true := by
  decide
